import Mathlib

/-!
Verification of the PharmaGuard pharmacogenomic inference engine
(`src/hooks/use-theme.ts`, engine portion): VCF parsing, diplotype and
phenotype resolution, risk classification, fallback explanation,
report assembly and the analysis orchestrator.

The TypeScript code is shallowly embedded: JS strings become `String`,
JS numbers carrying fixed decimal fractions become `ℚ` (all values in
the code are exact dyadic decimals, so this is lossless), JS objects
used as string-keyed maps become association lists, and the fallible
report assembler becomes `Except String`.  Runtime-environment inputs
(the wall clock behind `new Date().toISOString()`, `Date.parse`,
`Math.random`, and the network branch of the LLM call) are passed as
explicit parameters.
-/

namespace PharmaGuard

/- ── JS primitive modelling ─────────────────────────────────── -/

/-- Association-list lookup: first binding wins (JS object key lookup;
JS object literals in this code have distinct keys). -/
def alookup {α : Type} : List (String × α) → String → Option α
  | [], _ => none
  | (k, v) :: rest, key => if k = key then some v else alookup rest key

/-- JS object assignment `tags[key] = val`: replace the binding if the key
exists, otherwise append. -/
def setTag : List (String × String) → String → String → List (String × String)
  | [], k, v => [(k, v)]
  | (k', v') :: rest, k, v =>
      if k' = k then (k, v) :: rest else (k', v') :: setTag rest k v

/-- JS `a || b` on strings: the empty string is falsy. -/
def jsOr (a b : String) : String := if a = "" then b else a

/-- JS `String.prototype.toUpperCase` (character-wise upper-casing). -/
def jsToUpper (s : String) : String := String.mk (s.data.map Char.toUpper)

/-- JS `String.prototype.toLowerCase` (character-wise lower-casing). -/
def jsToLower (s : String) : String := String.mk (s.data.map Char.toLower)

/-- JS `String.prototype.trim`: strip whitespace from both ends. -/
def jsTrim (s : String) : String :=
  String.mk (((s.data.dropWhile Char.isWhitespace).reverse.dropWhile
    Char.isWhitespace).reverse)

/-- JS `s.startsWith(pre)`. -/
def jsStartsWith (s pre : String) : Bool := pre.data.isPrefixOf s.data

/-- Whether `sub` occurs as a contiguous run inside `l`. -/
def containsRun (sub : List Char) : List Char → Bool
  | [] => sub.isEmpty
  | x :: xs => sub.isPrefixOf (x :: xs) || containsRun sub xs

/-- JS `s.includes(sub)`. -/
def jsIncludes (s sub : String) : Bool := containsRun sub.data s.data

/-- JS `s.split(c)` for a single-character separator, on character lists.
`split` never returns an empty list: splitting the empty string yields
`[""]`, and a trailing separator yields a trailing empty piece. -/
def splitCharList (c : Char) : List Char → List (List Char)
  | [] => [[]]
  | x :: xs =>
      match splitCharList c xs with
      | [] => [[]]
      | h :: t => if x = c then [] :: h :: t else (x :: h) :: t

/-- JS `s.split(c)` for a single-character separator. -/
def jsSplitChar (c : Char) (s : String) : List String :=
  (splitCharList c s.data).map String.mk

/-- JS `parseInt(s, 10)` wrapped in the caller's `isNaN` guard: skip
leading whitespace, read an optional sign and a non-empty digit run,
`none` when no digit is found (NaN). -/
def parseIntJS (s : String) : Option Int :=
  let cs := s.data.dropWhile Char.isWhitespace
  let signAndRest : Int × List Char :=
    match cs with
    | '-' :: rest => (-1, rest)
    | '+' :: rest => (1, rest)
    | rest => (1, rest)
  let ds := signAndRest.2.takeWhile Char.isDigit
  if ds = [] then none
  else some (signAndRest.1 * (ds.foldl (fun a c => a * 10 + (c.toNat - 48)) 0 : Nat))

/-- `tags[k]` read as a string: `""` when the key is absent (JS
`undefined` is falsy, like the empty string, in every use site). -/
def getTag (tags : List (String × String)) (k : String) : String :=
  (alookup tags k).getD ""

/- ── Data model ─────────────────────────────────────────────── -/

/-- One detected genomic variant (interface `DetectedVariant`). -/
structure DetectedVariant where
  rsid : String
  gene : String
  star_allele : String
  chromosome : String := ""
  position : Option Int := none
  ref : Option String := none
  alt : Option String := none
deriving DecidableEq, Repr

/-- Risk labels per the schema (`type RiskLabel`). -/
inductive RiskLabel
  | Safe
  | AdjustDosage
  | Toxic
  | Ineffective
  | Unknown
deriving DecidableEq, Repr

/-- Severity values per the schema (`type Severity`). -/
inductive Severity
  | none
  | low
  | moderate
  | high
  | critical
deriving DecidableEq, Repr

/-- Result of `parseVCF` (interface `ParsedVCF`). -/
structure ParsedVCF where
  variants : List DetectedVariant
  variantsFound : Nat
  success : Bool
  error : Option String := Option.none
deriving DecidableEq, Repr

/-- Classifier output (interface `RiskResult`). -/
structure RiskResult where
  drug : String
  risk_label : RiskLabel
  severity : Severity
  confidence_score : ℚ
  phenotype : String
  diplotype : String
  primary_gene : String
  action : String
  dosing_recommendation : String
  detected_variants : List DetectedVariant
deriving DecidableEq, Repr

/-- Explanation bundle (`LLMExplanation`). -/
structure LLMExplanation where
  summary : String
  mechanism : String
  clinical_impact : String
deriving DecidableEq, Repr

/-- Quality metadata (interface `QualityMetrics`). -/
structure QualityMetrics where
  vcf_parsing_success : Bool
  variants_detected : Nat
  supported_gene_detected : Bool
  cpic_guideline_version : String
deriving DecidableEq, Repr

/-- `risk_assessment` sub-record of a report. -/
structure RiskAssessment where
  risk_label : RiskLabel
  confidence_score : ℚ
  severity : Severity
deriving DecidableEq, Repr

/-- `pharmacogenomic_profile` sub-record of a report. -/
structure PharmacogenomicProfile where
  primary_gene : String
  diplotype : String
  phenotype : String
  detected_variants : List DetectedVariant
deriving DecidableEq, Repr

/-- `clinical_recommendation` sub-record of a report. -/
structure ClinicalRecommendation where
  action : String
  dosing_recommendation : String
deriving DecidableEq, Repr

/-- The externally visible report (interface `PharmaGuardReport`). -/
structure Report where
  patient_id : String
  drug : String
  timestamp : String
  risk_assessment : RiskAssessment
  pharmacogenomic_profile : PharmacogenomicProfile
  clinical_recommendation : ClinicalRecommendation
  llm_generated_explanation : LLMExplanation
  quality_metrics : QualityMetrics
deriving DecidableEq, Repr

/- ── Rule database records ──────────────────────────────────── -/

/-- One drug rule of the database (interface `DrugRule`). -/
structure DrugRule where
  risk : RiskLabel
  severity : Severity
  recommendation : String
  dosing : String
deriving DecidableEq, Repr

/-- One diplotype entry of the database (interface `DiplotypeRule`). -/
structure DiplotypeRule where
  phenotype : String
  drugs : List (String × DrugRule)
deriving DecidableEq, Repr

/-- `type PharmaDB = Record<string, Record<string, DiplotypeRule>>`. -/
abbrev PharmaDB : Type := List (String × List (String × DiplotypeRule))

def CYP2D6_s1_s1_CODEINE : DrugRule :=
  { risk := .Safe, severity := Severity.none,
    recommendation := "Standard codeine dosing. Normal CYP2D6 activity ensures adequate morphine conversion. No dose adjustment required per CPIC Level A.",
    dosing := "Standard dose: 15–60 mg every 4–6 h as needed (adult). No adjustment required." }

def CYP2D6_s1_s1_TRAMADOL : DrugRule :=
  { risk := .Safe, severity := Severity.none,
    recommendation := "Standard tramadol dosing appropriate for CYP2D6 Normal Metabolizers.",
    dosing := "Standard dose: 50–100 mg every 4–6 h (max 400 mg/day). No adjustment required." }

def CYP2D6_s1_s1_METOPROLOL : DrugRule :=
  { risk := .Safe, severity := Severity.none,
    recommendation := "Standard metoprolol dosing. Normal CYP2D6-mediated clearance expected.",
    dosing := "Standard dose per indication. No pharmacogenomic adjustment required." }

def CYP2D6_s1_s1 : DiplotypeRule :=
  { phenotype := "Normal Metabolizer (NM)",
    drugs := [("CODEINE", CYP2D6_s1_s1_CODEINE), ("TRAMADOL", CYP2D6_s1_s1_TRAMADOL), ("METOPROLOL", CYP2D6_s1_s1_METOPROLOL)] }

def CYP2D6_s1_s4_CODEINE : DrugRule :=
  { risk := .AdjustDosage, severity := Severity.moderate,
    recommendation := "Reduced codeine-to-morphine conversion. Consider lower starting dose or alternative opioid (e.g., morphine). Monitor for inadequate analgesia.",
    dosing := "Reduce starting dose by 25–50%. Consider tramadol alternatives. Monitor pain control closely." }

def CYP2D6_s1_s4_TRAMADOL : DrugRule :=
  { risk := .AdjustDosage, severity := Severity.moderate,
    recommendation := "Reduced tramadol activation. Monitor efficacy; consider non-CYP2D6-substrate analgesic.",
    dosing := "Use lower end of dose range. Consider non-opioid analgesic alternatives." }

def CYP2D6_s1_s4 : DiplotypeRule :=
  { phenotype := "Intermediate Metabolizer (IM)",
    drugs := [("CODEINE", CYP2D6_s1_s4_CODEINE), ("TRAMADOL", CYP2D6_s1_s4_TRAMADOL)] }

def CYP2D6_s1_s2_CODEINE : DrugRule :=
  { risk := .AdjustDosage, severity := Severity.moderate,
    recommendation := "Use reduced codeine dose or select a direct-acting opioid. Close monitoring recommended.",
    dosing := "Reduce dose by 25%. Reassess after 48 h. Consider direct-acting opioid (morphine, oxycodone)." }

def CYP2D6_s1_s2 : DiplotypeRule :=
  { phenotype := "Intermediate Metabolizer (IM)",
    drugs := [("CODEINE", CYP2D6_s1_s2_CODEINE)] }

def CYP2D6_s4_s4_CODEINE : DrugRule :=
  { risk := .Toxic, severity := Severity.high,
    recommendation := "CONTRAINDICATED. Non-functional CYP2D6 → codeine accumulates without morphine conversion. Life-threatening toxicity risk. Use morphine or non-opioid analgesics. CPIC Level A.",
    dosing := "AVOID codeine. Use morphine (0.1–0.2 mg/kg IV/IM) or non-opioid (NSAIDs, acetaminophen) instead." }

def CYP2D6_s4_s4_TRAMADOL : DrugRule :=
  { risk := .Toxic, severity := Severity.high,
    recommendation := "Negligible O-desmethyltramadol production. Avoid tramadol. Select alternative analgesic.",
    dosing := "AVOID tramadol. Use non-CYP2D6 analgesics (e.g., acetaminophen, NSAIDs, morphine)." }

def CYP2D6_s4_s4 : DiplotypeRule :=
  { phenotype := "Poor Metabolizer (PM)",
    drugs := [("CODEINE", CYP2D6_s4_s4_CODEINE), ("TRAMADOL", CYP2D6_s4_s4_TRAMADOL)] }

def CYP2D6_s2_s2_CODEINE : DrugRule :=
  { risk := .Toxic, severity := Severity.high,
    recommendation := "AVOID codeine. Non-functional CYP2D6. Accumulation of parent compound with inadequate analgesia. Use morphine or alternative.",
    dosing := "AVOID codeine entirely. Prescribe morphine sulfate IR or non-opioid analgesic." }

def CYP2D6_s2_s2 : DiplotypeRule :=
  { phenotype := "Poor Metabolizer (PM)",
    drugs := [("CODEINE", CYP2D6_s2_s2_CODEINE)] }

def CYP2D6_s1_s1xN_CODEINE : DrugRule :=
  { risk := .Toxic, severity := Severity.critical,
    recommendation := "CONTRAINDICATED. Ultrarapid CYP2D6 → excessive morphine production from codeine. Life-threatening respiratory depression risk (CPIC Level A). Avoid codeine/tramadol. Use non-opioid alternatives.",
    dosing := "CONTRAINDICATED. Use non-opioid analgesics exclusively. If opioids necessary, use non-CYP2D6 substrates (e.g., buprenorphine, fentanyl) with close monitoring." }

def CYP2D6_s1_s1xN : DiplotypeRule :=
  { phenotype := "Ultrarapid Metabolizer (UM)",
    drugs := [("CODEINE", CYP2D6_s1_s1xN_CODEINE)] }

def DB_CYP2D6 : List (String × DiplotypeRule) :=
  [("*1/*1", CYP2D6_s1_s1),
   ("*1/*4", CYP2D6_s1_s4),
   ("*1/*2", CYP2D6_s1_s2),
   ("*4/*4", CYP2D6_s4_s4),
   ("*2/*2", CYP2D6_s2_s2),
   ("*1/*1xN", CYP2D6_s1_s1xN)]

def CYP2C19_s1_s1_CLOPIDOGREL : DrugRule :=
  { risk := .Safe, severity := Severity.none,
    recommendation := "Standard clopidogrel dosing. Expected antiplatelet activation. No dose adjustment required per CPIC Level A.",
    dosing := "Standard: 75 mg/day maintenance after 300 mg loading dose. No adjustment required." }

def CYP2C19_s1_s1_OMEPRAZOLE : DrugRule :=
  { risk := .Safe, severity := Severity.none,
    recommendation := "Standard omeprazole dosing appropriate for Normal Metabolizers.",
    dosing := "Standard dose 20–40 mg/day. No pharmacogenomic adjustment required." }

def CYP2C19_s1_s1 : DiplotypeRule :=
  { phenotype := "Normal Metabolizer (NM)",
    drugs := [("CLOPIDOGREL", CYP2C19_s1_s1_CLOPIDOGREL), ("OMEPRAZOLE", CYP2C19_s1_s1_OMEPRAZOLE)] }

def CYP2C19_s1_s2_CLOPIDOGREL : DrugRule :=
  { risk := .AdjustDosage, severity := Severity.moderate,
    recommendation := "Reduced clopidogrel bioactivation. Consider alternative antiplatelet agents (ticagrelor, prasugrel) especially in ACS/high-risk PCI patients. CPIC Level A.",
    dosing := "Consider switching to ticagrelor 90 mg BID or prasugrel 10 mg/day (if eligible). If clopidogrel continued, consider 150 mg/day maintenance." }

def CYP2C19_s1_s2_OMEPRAZOLE : DrugRule :=
  { risk := .AdjustDosage, severity := Severity.low,
    recommendation := "Mildly reduced omeprazole clearance. Standard dose typically adequate; monitor response.",
    dosing := "Standard dose usually adequate. Consider dose reduction if prolonged use planned." }

def CYP2C19_s1_s2 : DiplotypeRule :=
  { phenotype := "Intermediate Metabolizer (IM)",
    drugs := [("CLOPIDOGREL", CYP2C19_s1_s2_CLOPIDOGREL), ("OMEPRAZOLE", CYP2C19_s1_s2_OMEPRAZOLE)] }

def CYP2C19_s2_s2_CLOPIDOGREL : DrugRule :=
  { risk := .Ineffective, severity := Severity.high,
    recommendation := "Severely reduced clopidogrel bioactivation to active thiol metabolite. Use prasugrel or ticagrelor instead (CPIC Level A). Risk of major adverse cardiovascular events.",
    dosing := "AVOID clopidogrel. Use prasugrel 10 mg/day or ticagrelor 90 mg BID per CPIC Level A recommendation." }

def CYP2C19_s2_s2_OMEPRAZOLE : DrugRule :=
  { risk := .AdjustDosage, severity := Severity.moderate,
    recommendation := "Significantly reduced omeprazole clearance. Dose reduction may be warranted.",
    dosing := "Reduce omeprazole dose by 50% or switch to pantoprazole (not CYP2C19-dependent)." }

def CYP2C19_s2_s2 : DiplotypeRule :=
  { phenotype := "Poor Metabolizer (PM)",
    drugs := [("CLOPIDOGREL", CYP2C19_s2_s2_CLOPIDOGREL), ("OMEPRAZOLE", CYP2C19_s2_s2_OMEPRAZOLE)] }

def CYP2C19_s17_s17_CLOPIDOGREL : DrugRule :=
  { risk := .Safe, severity := Severity.none,
    recommendation := "Enhanced clopidogrel bioactivation. Standard dosing; be aware of potentially increased bleeding risk.",
    dosing := "Standard dose (75 mg/day). Monitor for bleeding signs given enhanced activation." }

def CYP2C19_s17_s17_OMEPRAZOLE : DrugRule :=
  { risk := .AdjustDosage, severity := Severity.moderate,
    recommendation := "Accelerated omeprazole clearance. Higher doses may be needed for adequate acid suppression.",
    dosing := "Consider doubling dose to 40–80 mg/day or switching to pantoprazole." }

def CYP2C19_s17_s17 : DiplotypeRule :=
  { phenotype := "Ultrarapid Metabolizer (UM)",
    drugs := [("CLOPIDOGREL", CYP2C19_s17_s17_CLOPIDOGREL), ("OMEPRAZOLE", CYP2C19_s17_s17_OMEPRAZOLE)] }

def CYP2C19_s1_s17_CLOPIDOGREL : DrugRule :=
  { risk := .Safe, severity := Severity.none,
    recommendation := "Adequate clopidogrel activation expected. Standard dosing appropriate.",
    dosing := "Standard dose: 75 mg/day maintenance. No adjustment required." }

def CYP2C19_s1_s17 : DiplotypeRule :=
  { phenotype := "Rapid Metabolizer (RM)",
    drugs := [("CLOPIDOGREL", CYP2C19_s1_s17_CLOPIDOGREL)] }

def DB_CYP2C19 : List (String × DiplotypeRule) :=
  [("*1/*1", CYP2C19_s1_s1),
   ("*1/*2", CYP2C19_s1_s2),
   ("*2/*2", CYP2C19_s2_s2),
   ("*17/*17", CYP2C19_s17_s17),
   ("*1/*17", CYP2C19_s1_s17)]

def CYP2C9_s1_s1_WARFARIN : DrugRule :=
  { risk := .Safe, severity := Severity.none,
    recommendation := "Standard warfarin initiation per CPIC/IWPC dosing algorithm. Routine INR monitoring as per clinical guidelines.",
    dosing := "Initiate per IWPC algorithm (typically 5 mg/day). Target INR 2–3. Weekly INR monitoring during initiation." }

def CYP2C9_s1_s1 : DiplotypeRule :=
  { phenotype := "Normal Metabolizer (NM)",
    drugs := [("WARFARIN", CYP2C9_s1_s1_WARFARIN)] }

def CYP2C9_s1_s2_WARFARIN : DrugRule :=
  { risk := .AdjustDosage, severity := Severity.moderate,
    recommendation := "Reduce initial warfarin dose by ~20–25%. Slower clearance increases bleeding risk. Intensive INR monitoring during initiation. CPIC Level A.",
    dosing := "Reduce starting dose by 20–25% (e.g., 3.75 mg/day). INR check at day 3, 5, 7, then weekly. Target INR 2–3." }

def CYP2C9_s1_s2 : DiplotypeRule :=
  { phenotype := "Intermediate Metabolizer (IM)",
    drugs := [("WARFARIN", CYP2C9_s1_s2_WARFARIN)] }

def CYP2C9_s1_s3_WARFARIN : DrugRule :=
  { risk := .AdjustDosage, severity := Severity.moderate,
    recommendation := "Reduce initial warfarin dose by 30–40%. CYP2C9*3 severely impairs warfarin S-enantiomer hydroxylation. Frequent INR monitoring mandatory.",
    dosing := "Reduce starting dose by 30–40% (e.g., 3 mg/day). INR at day 3, 5, 7, then twice-weekly until stable. Target INR 2–3." }

def CYP2C9_s1_s3 : DiplotypeRule :=
  { phenotype := "Intermediate Metabolizer (IM)",
    drugs := [("WARFARIN", CYP2C9_s1_s3_WARFARIN)] }

def CYP2C9_s2_s3_WARFARIN : DrugRule :=
  { risk := .Toxic, severity := Severity.high,
    recommendation := "Significant dose reduction required (~50–60% of standard). Extreme warfarin sensitivity. Genotype-guided dosing algorithm (IWPC) recommended. Intensive INR monitoring.",
    dosing := "Initiate at ≤2.5 mg/day. INR every 2–3 days until stable. Consider direct oral anticoagulant (DOAC) as safer alternative." }

def CYP2C9_s2_s3 : DiplotypeRule :=
  { phenotype := "Poor Metabolizer (PM)",
    drugs := [("WARFARIN", CYP2C9_s2_s3_WARFARIN)] }

def CYP2C9_s3_s3_WARFARIN : DrugRule :=
  { risk := .Toxic, severity := Severity.critical,
    recommendation := "Consider alternative anticoagulant (DOAC). If warfarin necessary, initiate at very low dose under expert supervision with intensive monitoring. CPIC Level A.",
    dosing := "STRONGLY prefer apixaban, rivaroxaban, or dabigatran. If warfarin required: start ≤1.5 mg/day with INR monitoring every 2 days. Expert pharmacogenomics consultation mandatory." }

def CYP2C9_s3_s3 : DiplotypeRule :=
  { phenotype := "Poor Metabolizer (PM)",
    drugs := [("WARFARIN", CYP2C9_s3_s3_WARFARIN)] }

def DB_CYP2C9 : List (String × DiplotypeRule) :=
  [("*1/*1", CYP2C9_s1_s1),
   ("*1/*2", CYP2C9_s1_s2),
   ("*1/*3", CYP2C9_s1_s3),
   ("*2/*3", CYP2C9_s2_s3),
   ("*3/*3", CYP2C9_s3_s3)]

def SLCO1B1_s1_s1_SIMVASTATIN : DrugRule :=
  { risk := .Safe, severity := Severity.none,
    recommendation := "Standard simvastatin dosing. Normal OATP1B1 transport function. Routine CK monitoring per standard guidelines.",
    dosing := "Standard dose up to 40 mg/day. No pharmacogenomic dose restriction. Routine CK monitoring." }

def SLCO1B1_s1_s1 : DiplotypeRule :=
  { phenotype := "Normal Function (NF)",
    drugs := [("SIMVASTATIN", SLCO1B1_s1_s1_SIMVASTATIN)] }

def SLCO1B1_s1_s5_SIMVASTATIN : DrugRule :=
  { risk := .AdjustDosage, severity := Severity.moderate,
    recommendation := "Increased simvastatin plasma exposure due to reduced hepatic uptake. Use ≤20 mg/day or switch to pravastatin/rosuvastatin. CPIC Level A.",
    dosing := "Cap simvastatin at 20 mg/day OR switch to pravastatin 40 mg/day or rosuvastatin 10–20 mg/day (less SLCO1B1-dependent). CK monitoring every 3 months." }

def SLCO1B1_s1_s5 : DiplotypeRule :=
  { phenotype := "Decreased Function (DF)",
    drugs := [("SIMVASTATIN", SLCO1B1_s1_s5_SIMVASTATIN)] }

def SLCO1B1_s5_s5_SIMVASTATIN : DrugRule :=
  { risk := .Toxic, severity := Severity.high,
    recommendation := "HIGH RISK of simvastatin-induced myopathy and rhabdomyolysis. Avoid simvastatin >20 mg. Strongly prefer pravastatin or rosuvastatin. Monitor CK. CPIC Level A.",
    dosing := "AVOID simvastatin. Use pravastatin 40 mg/day or rosuvastatin 10 mg/day. Baseline CK + monthly monitoring for 3 months." }

def SLCO1B1_s5_s5 : DiplotypeRule :=
  { phenotype := "Poor Function (PF)",
    drugs := [("SIMVASTATIN", SLCO1B1_s5_s5_SIMVASTATIN)] }

def DB_SLCO1B1 : List (String × DiplotypeRule) :=
  [("*1/*1", SLCO1B1_s1_s1),
   ("*1/*5", SLCO1B1_s1_s5),
   ("*5/*5", SLCO1B1_s5_s5)]

def TPMT_s1_s1_AZATHIOPRINE : DrugRule :=
  { risk := .Safe, severity := Severity.none,
    recommendation := "Standard azathioprine dosing. Normal TPMT activity. Routine CBC monitoring per immunosuppression protocol.",
    dosing := "Standard dose: 1–3 mg/kg/day. CBC weekly for first month, then monthly. Adjust per clinical response." }

def TPMT_s1_s1_MERCAPTOPURINE : DrugRule :=
  { risk := .Safe, severity := Severity.none,
    recommendation := "Standard mercaptopurine dosing for Normal TPMT Metabolizers.",
    dosing := "Standard dose: 1.5–2.5 mg/kg/day. CBC monitoring weekly initially." }

def TPMT_s1_s1 : DiplotypeRule :=
  { phenotype := "Normal Metabolizer (NM)",
    drugs := [("AZATHIOPRINE", TPMT_s1_s1_AZATHIOPRINE), ("MERCAPTOPURINE", TPMT_s1_s1_MERCAPTOPURINE)] }

def TPMT_s1_s3A_AZATHIOPRINE : DrugRule :=
  { risk := .AdjustDosage, severity := Severity.moderate,
    recommendation := "Reduce azathioprine starting dose by 30–70% of standard. Monitor CBC closely for myelosuppression. Titrate based on tolerance. CPIC Level A.",
    dosing := "Start at 0.5–1.5 mg/kg/day (30–70% reduction). CBC weekly × 4, then every 2 weeks. Titrate based on CBC and clinical response." }

def TPMT_s1_s3A_MERCAPTOPURINE : DrugRule :=
  { risk := .AdjustDosage, severity := Severity.moderate,
    recommendation := "Reduce mercaptopurine starting dose by 30–70%. Weekly CBC monitoring.",
    dosing := "Start at 0.5–1.5 mg/kg/day. Weekly CBC monitoring. Increase cautiously based on tolerance." }

def TPMT_s1_s3A : DiplotypeRule :=
  { phenotype := "Intermediate Metabolizer (IM)",
    drugs := [("AZATHIOPRINE", TPMT_s1_s3A_AZATHIOPRINE), ("MERCAPTOPURINE", TPMT_s1_s3A_MERCAPTOPURINE)] }

def TPMT_s3A_s3A_AZATHIOPRINE : DrugRule :=
  { risk := .Toxic, severity := Severity.critical,
    recommendation := "LIFE-THREATENING risk. Standard doses cause severe myelosuppression. Reduce to ~10% of standard dose or select alternative immunosuppressant. Mandatory CBC monitoring. CPIC Level A.",
    dosing := "Reduce to 10% of standard dose (≈0.1–0.3 mg/kg/day, 3×/week dosing) OR switch to mycophenolate mofetil. Daily CBC for first 2 weeks. Immediate cessation if CBC deteriorates." }

def TPMT_s3A_s3A_MERCAPTOPURINE : DrugRule :=
  { risk := .Toxic, severity := Severity.critical,
    recommendation := "Severe myelosuppression risk. Reduce to 10% of standard dose. Consider alternative therapy. CPIC Level A.",
    dosing := "Reduce to 10% of standard dose (3×/week). Daily CBC monitoring. Immediate hematology referral." }

def TPMT_s3A_s3A : DiplotypeRule :=
  { phenotype := "Poor Metabolizer (PM)",
    drugs := [("AZATHIOPRINE", TPMT_s3A_s3A_AZATHIOPRINE), ("MERCAPTOPURINE", TPMT_s3A_s3A_MERCAPTOPURINE)] }

def DB_TPMT : List (String × DiplotypeRule) :=
  [("*1/*1", TPMT_s1_s1),
   ("*1/*3A", TPMT_s1_s3A),
   ("*3A/*3A", TPMT_s3A_s3A)]

def DPYD_s1_s1_FLUOROURACIL : DrugRule :=
  { risk := .Safe, severity := Severity.none,
    recommendation := "Standard 5-FU dosing. Normal DPD enzyme activity. Proceed with standard oncology protocol.",
    dosing := "Standard oncology protocol dose. No pharmacogenomic restriction. Monitor per standard toxicity criteria (NCI-CTCAE)." }

def DPYD_s1_s1_CAPECITABINE : DrugRule :=
  { risk := .Safe, severity := Severity.none,
    recommendation := "Standard capecitabine dosing for Normal DPYD Metabolizers.",
    dosing := "Standard dose: 1250 mg/m² BID × 14 days per cycle. No adjustment required." }

def DPYD_s1_s1 : DiplotypeRule :=
  { phenotype := "Normal Metabolizer (NM)",
    drugs := [("FLUOROURACIL", DPYD_s1_s1_FLUOROURACIL), ("CAPECITABINE", DPYD_s1_s1_CAPECITABINE)] }

def DPYD_s1_s2A_FLUOROURACIL : DrugRule :=
  { risk := .AdjustDosage, severity := Severity.moderate,
    recommendation := "Reduce 5-FU starting dose by 50%. Reduced DPD activity increases severe toxicity risk. Monitor for mucositis, myelosuppression, diarrhea. CPIC Level A.",
    dosing := "Reduce starting dose by 50%. Consider DPD phenotyping (uracil breath test) before further escalation. NCI-CTCAE grade 3+ toxicity → hold and reduce further." }

def DPYD_s1_s2A_CAPECITABINE : DrugRule :=
  { risk := .AdjustDosage, severity := Severity.moderate,
    recommendation := "Reduce capecitabine dose by 50%. Monitor closely for Grade 3–4 toxicities.",
    dosing := "Reduce to 625 mg/m² BID (50% reduction). Monitor for hand-foot syndrome, mucositis, diarrhea. Grade 3+ → hold therapy." }

def DPYD_s1_s2A : DiplotypeRule :=
  { phenotype := "Intermediate Metabolizer (IM)",
    drugs := [("FLUOROURACIL", DPYD_s1_s2A_FLUOROURACIL), ("CAPECITABINE", DPYD_s1_s2A_CAPECITABINE)] }

def DPYD_s2A_s2A_FLUOROURACIL : DrugRule :=
  { risk := .Toxic, severity := Severity.critical,
    recommendation := "CONTRAINDICATED. Complete DPD deficiency → life-threatening 5-FU toxicity. Avoid all fluoropyrimidines or use only under expert supervision with >75% dose reduction. CPIC Level A.",
    dosing := "CONTRAINDICATED for fluoropyrimidines. If oncologically necessary: >75% dose reduction with expert pharmacogenomics consultation, uracil monitoring, and intensive toxicity surveillance." }

def DPYD_s2A_s2A_CAPECITABINE : DrugRule :=
  { risk := .Toxic, severity := Severity.critical,
    recommendation := "CONTRAINDICATED. Complete DPD deficiency. Life-threatening toxicity. Avoid capecitabine. CPIC Level A.",
    dosing := "CONTRAINDICATED. Consider non-fluoropyrimidine chemotherapy regimens. Oncology + clinical pharmacogenomics consultation mandatory." }

def DPYD_s2A_s2A : DiplotypeRule :=
  { phenotype := "Poor Metabolizer (PM)",
    drugs := [("FLUOROURACIL", DPYD_s2A_s2A_FLUOROURACIL), ("CAPECITABINE", DPYD_s2A_s2A_CAPECITABINE)] }

def DB_DPYD : List (String × DiplotypeRule) :=
  [("*1/*1", DPYD_s1_s1),
   ("*1/*2A", DPYD_s1_s2A),
   ("*2A/*2A", DPYD_s2A_s2A)]

/-- The static rule database: gene, then diplotype, then phenotype and per-drug rules. -/
def pharmacogenomicDB : PharmaDB :=
  [("CYP2D6", DB_CYP2D6), ("CYP2C19", DB_CYP2C19), ("CYP2C9", DB_CYP2C9), ("SLCO1B1", DB_SLCO1B1), ("TPMT", DB_TPMT), ("DPYD", DB_DPYD)]

/-- Supported gene names: `Object.keys(pharmacogenomicDB)`. -/
def SUPPORTED_GENES : List String := pharmacogenomicDB.map Prod.fst

/-- Exact drug → gene requirement map (`DRUG_GENE_MAP`). -/
def DRUG_GENE_MAP : List (String × String) :=
  [("CODEINE", "CYP2D6"),
   ("TRAMADOL", "CYP2D6"),
   ("METOPROLOL", "CYP2D6"),
   ("WARFARIN", "CYP2C9"),
   ("CLOPIDOGREL", "CYP2C19"),
   ("OMEPRAZOLE", "CYP2C19"),
   ("SIMVASTATIN", "SLCO1B1"),
   ("AZATHIOPRINE", "TPMT"),
   ("MERCAPTOPURINE", "TPMT"),
   ("FLUOROURACIL", "DPYD"),
   ("CAPECITABINE", "DPYD")]

/-- Star allele → activity score per gene (`ACTIVITY_SCORES`). -/
def ACTIVITY_SCORES : List (String × List (String × ℚ)) :=
  [("CYP2D6", [("*1", 1.0), ("*2", 1.0), ("*4", 0.0), ("*5", 0.0),
               ("*10", 0.5), ("*41", 0.5), ("*1xN", 3.0)]),
   ("CYP2C19", [("*1", 1.0), ("*2", 0.0), ("*3", 0.0), ("*17", 1.5)]),
   ("CYP2C9", [("*1", 1.0), ("*2", 0.5), ("*3", 0.25)]),
   ("SLCO1B1", [("*1", 1.0), ("*5", 0.5), ("*15", 0.5)]),
   ("TPMT", [("*1", 1.0), ("*2", 0.0), ("*3A", 0.0), ("*3B", 0.0), ("*3C", 0.0)]),
   ("DPYD", [("*1", 1.0), ("*2A", 0.0), ("*13", 0.5)])]

/- ── 1. VCF Parser ──────────────────────────────────────────── -/

/-- `parseInfoTags` – semicolon-delimited `key=value` pairs of a VCF INFO
field (first `=` wins, `eqIdx > 0`, keys and values trimmed). -/
def parseInfoTags (info : String) : List (String × String) :=
  (jsSplitChar ';' info).foldl
    (fun tags part =>
      match part.data.findIdx? (· = '=') with
      | some i =>
          if 0 < i then
            setTag tags (jsTrim (String.mk (part.data.take i)))
              (jsTrim (String.mk (part.data.drop (i + 1))))
          else tags
      | none => tags)
    []

/-- The gene symbol a data line registers:
`(infoTags["GENE"] || infoTags["gene"] || "").toUpperCase()`. -/
def lineGene (infoTags : List (String × String)) : String :=
  jsToUpper (jsOr (getTag infoTags "GENE") (getTag infoTags "gene"))

/-- One iteration of the `extractVariants` loop: `some` exactly when the
line pushes a variant record, `none` when it is skipped. -/
def parseVCFLine (rawLine : String) : Option DetectedVariant :=
  let line := jsTrim rawLine
  if jsStartsWith line "#" ∨ line = "" then none
  else
    let cols := jsSplitChar '\t' line
    if cols.length < 8 then none
    else
      let chrom := jsOr (cols.getD 0 "") ""
      let pos := parseIntJS (cols.getD 1 "")
      let c2 := cols.getD 2 ""
      let vcfId := if c2 ≠ "" ∧ c2 ≠ "." then c2 else ""
      let c3 := cols.getD 3 ""
      let ref := if c3 ≠ "" ∧ c3 ≠ "." then c3 else ""
      let c4 := cols.getD 4 ""
      let alt := if c4 ≠ "" ∧ c4 ≠ "." then c4 else ""
      let info := jsOr (cols.getD 7 "") ""
      let infoTags := parseInfoTags info
      let gene := lineGene infoTags
      let star := jsOr (getTag infoTags "STAR")
        (jsOr (getTag infoTags "star") (jsOr (getTag infoTags "ALLELE") "*1"))
      let rsFromInfo := jsOr (getTag infoTags "RS") (getTag infoTags "rs")
      let rsid :=
        if rsFromInfo ≠ "" then
          (if jsStartsWith rsFromInfo "rs" then rsFromInfo else "rs" ++ rsFromInfo)
        else jsOr vcfId "unknown"
      if gene ≠ "" then
        some { rsid := rsid, gene := gene, star_allele := star,
               chromosome := chrom, position := pos,
               ref := if ref ≠ "" then some ref else none,
               alt := if alt ≠ "" then some alt else none }
      else none

/-- `extractVariants` – every qualifying line becomes one record, in line
order; header, blank, short and gene-less lines are skipped. -/
def extractVariants (lines : List String) : List DetectedVariant :=
  lines.filterMap parseVCFLine

/-- `parseVCF` – validates the VCF header, then extracts variants. -/
def parseVCF (fileContent : String) : ParsedVCF :=
  let lines := jsSplitChar '\n' fileContent
  let hasHeader := lines.any
    (fun l => jsStartsWith l "##fileformat=VCF" || jsStartsWith l "#CHROM")
  if hasHeader then
    let variants := extractVariants lines
    { variants := variants, variantsFound := variants.length, success := true }
  else
    { variants := [], variantsFound := 0, success := false,
      error := some "Invalid VCF format: missing ##fileformat or #CHROM header line." }

/- ── 2. Diplotype / phenotype resolver ──────────────────────── -/

/-- `v.star_allele || "*1"`. -/
def jsStar (v : DetectedVariant) : String := jsOr v.star_allele "*1"

/-- `determineDiplotype` – `none` when no variants (caller handles the
Unknown state), `*1/a` for a single variant, first-two alleles otherwise. -/
def determineDiplotype (relevantVariants : List DetectedVariant) : Option String :=
  match relevantVariants with
  | [] => none
  | [v] => some ("*1/" ++ jsStar v)
  | v1 :: v2 :: _ => some (jsStar v1 ++ "/" ++ jsStar v2)

/-- `determinePhenotype` – CPIC activity-score phenotype: sum the scores
of the two diplotype alleles (single variant paired with `*1`, unlisted
allele scored 0) and threshold. -/
def determinePhenotype (relevantVariants : List DetectedVariant) (gene : String) :
    String :=
  match alookup ACTIVITY_SCORES gene with
  | none => "Unknown"
  | some geneScores =>
    let alleles : Option (List String) :=
      match relevantVariants with
      | [] => none
      | [v] => some ["*1", jsStar v]
      | v1 :: v2 :: _ => some [jsStar v1, jsStar v2]
    match alleles with
    | none => "Unknown"
    | some alleles =>
      let score : ℚ := alleles.foldl (fun sum a => sum + ((alookup geneScores a).getD 0)) 0
      if score = 0 then "Poor Metabolizer (PM)"
      else if score ≤ 1 then "Intermediate Metabolizer (IM)"
      else if score ≤ 2 then "Normal Metabolizer (NM)"
      else "Ultrarapid Metabolizer (UM)"

/- ── 3. Risk classifier ─────────────────────────────────────── -/

/-- Result shape of `deriveRiskFromPhenotype`. -/
structure PhenotypeRisk where
  risk_label : RiskLabel
  severity : Severity
  action : String
  dosing : String
deriving DecidableEq, Repr

/-- `deriveRiskFromPhenotype` – heuristic verdict when no exact
diplotype-drug rule exists, keyed on the phenotype label text and on a
fixed prodrug set. -/
def deriveRiskFromPhenotype (drug phenotype gene : String) : PhenotypeRisk :=
  let isProdrug := ["CODEINE", "TRAMADOL", "CLOPIDOGREL"].contains drug
  if jsIncludes phenotype "Poor" then
    { risk_label := if isProdrug then .Ineffective else .Toxic,
      severity := .high,
      action := gene ++ " Poor Metabolizer status detected. " ++
        (if isProdrug then "Drug activation severely impaired — use alternative."
         else "Drug clearance severely reduced — reduce dose or use alternative."),
      dosing := "Consult CPIC guidelines for " ++ gene ++ " Poor Metabolizer " ++
        drug ++ " dosing. Consider alternative therapy." }
  else if jsIncludes phenotype "Intermediate" then
    { risk_label := .AdjustDosage, severity := .moderate,
      action := gene ++ " Intermediate Metabolizer — dose adjustment recommended for "
        ++ drug ++ ".",
      dosing := "Reduce " ++ drug ++ " dose per CPIC guidelines. Monitor clinical response closely." }
  else if jsIncludes phenotype "Ultrarapid" then
    { risk_label := if isProdrug then .Toxic else .AdjustDosage,
      severity := if isProdrug then .critical else .moderate,
      action := gene ++ " Ultrarapid Metabolizer. " ++
        (if isProdrug then "Excessive active metabolite production — life-threatening toxicity risk."
         else "Accelerated clearance — dose increase may be needed."),
      dosing := if isProdrug then "AVOID " ++ drug ++ ". Use non-" ++ gene ++ "-substrate alternative."
        else "Consider dose increase. Monitor efficacy." }
  else
    { risk_label := .Safe, severity := Severity.none,
      action := gene ++ " " ++ phenotype ++ " — standard " ++ drug ++ " dosing appropriate.",
      dosing := "Standard dosing per prescribing information. No pharmacogenomic adjustment required." }

/-- The exact-rule lookup of `classifyRisk` step 6:
`pharmacogenomicDB[gene]?.[diplotype]?.drugs[drug]`. -/
def exactRule (gene diplotype drug : String) : Option (DiplotypeRule × DrugRule) :=
  match alookup pharmacogenomicDB gene with
  | none => none
  | some diplotypeMap =>
    match alookup diplotypeMap diplotype with
    | none => none
    | some diplotypeRule =>
      (alookup diplotypeRule.drugs drug).map (fun r => (diplotypeRule, r))

/-- `classifyRisk` – the core risk engine: map drug to its gene, filter
variants to that gene, then exact rule (0.95) / phenotype heuristic
(0.75) / Unknown (0.40). -/
def classifyRisk (drug : String) (variants : List DetectedVariant) : RiskResult :=
  let drugUpper := jsTrim (jsToUpper drug)
  match alookup DRUG_GENE_MAP drugUpper with
  | none =>
    { drug := drugUpper, risk_label := .Unknown, severity := .moderate,
      confidence_score := 0.4, phenotype := "Unknown", diplotype := "Unknown",
      primary_gene := "Not detected",
      action := "Drug \"" ++ drugUpper ++
        "\" is not in the supported drug-gene map. Apply standard clinical guidelines.",
      dosing_recommendation :=
        "Use standard dosing per prescribing information. No pharmacogenomic data available.",
      detected_variants := [] }
  | some requiredGene =>
    let relevantVariants := variants.filter (fun v => v.gene == requiredGene)
    if relevantVariants.length = 0 then
      { drug := drugUpper, risk_label := .Unknown, severity := .moderate,
        confidence_score := 0.4, phenotype := "Unknown", diplotype := "Unknown",
        primary_gene := requiredGene,
        action := "No " ++ requiredGene ++
          " variants detected in VCF. Cannot determine pharmacogenomic risk. Consult clinical pharmacogenomics specialist.",
        dosing_recommendation :=
          "Use standard dosing. Consider clinical pharmacogenomic testing for this gene.",
        detected_variants := [] }
    else
      let diplotype := (determineDiplotype relevantVariants).getD "Unknown"
      let phenotype := determinePhenotype relevantVariants requiredGene
      match exactRule requiredGene diplotype drugUpper with
      | some (diplotypeRule, drugRule) =>
        { drug := drugUpper, risk_label := drugRule.risk,
          severity := drugRule.severity, confidence_score := 0.95,
          phenotype := diplotypeRule.phenotype, diplotype := diplotype,
          primary_gene := requiredGene, action := drugRule.recommendation,
          dosing_recommendation := drugRule.dosing,
          detected_variants := relevantVariants }
      | none =>
        let phenotypeRisk := deriveRiskFromPhenotype drugUpper phenotype requiredGene
        { drug := drugUpper, risk_label := phenotypeRisk.risk_label,
          severity := phenotypeRisk.severity, confidence_score := 0.75,
          phenotype := phenotype, diplotype := diplotype,
          primary_gene := requiredGene, action := phenotypeRisk.action,
          dosing_recommendation := phenotypeRisk.dosing,
          detected_variants := relevantVariants }

/- ── 4. Schema validation and report assembly ───────────────── -/

/-- The five-member risk-label enum used by the validator. -/
def VALID_RISK_LABELS : List RiskLabel :=
  [.Safe, .AdjustDosage, .Toxic, .Ineffective, .Unknown]

/-- The five-member severity enum used by the validator. -/
def VALID_SEVERITIES : List Severity :=
  [Severity.none, .low, .moderate, .high, .critical]

/-- `validateSchema` – `none` when valid, otherwise the first violation's
message.  The JS runtime's `Date.parse` is passed in as `dateParses`.
The source's missing-key and `typeof` checks are guaranteed by the Lean
types of `Report` and hold vacuously; the value-level checks (non-empty
strings, date validity, enum membership) are kept, in source order. -/
def validateSchema (dateParses : String → Bool) (r : Report) : Option String :=
  if r.patient_id = "" then some "patient_id must be a non-empty string."
  else if r.drug = "" then some "drug must be a non-empty string."
  else if ¬ dateParses r.timestamp then some "timestamp must be a valid ISO 8601 string."
  else if ¬ VALID_RISK_LABELS.contains r.risk_assessment.risk_label then
    some "risk_assessment.risk_label must be one of: Safe, Adjust Dosage, Toxic, Ineffective, Unknown."
  else if ¬ VALID_SEVERITIES.contains r.risk_assessment.severity then
    some "risk_assessment.severity must be one of: none, low, moderate, high, critical."
  else none

/-- The report object `generateJSON` constructs before validating it.
`now` is the value of `new Date().toISOString()` at assembly time. -/
def assembleReport (now patientId : String) (riskResult : RiskResult)
    (vcfSuccess : Bool) (llmExplanation : LLMExplanation) : Report :=
  let geneDetected := riskResult.primary_gene ≠ "Not detected"
  let relevantCount := riskResult.detected_variants.length
  { patient_id := patientId,
    drug := riskResult.drug,
    timestamp := now,
    risk_assessment :=
      { risk_label := riskResult.risk_label,
        confidence_score := riskResult.confidence_score,
        severity := riskResult.severity },
    pharmacogenomic_profile :=
      { primary_gene := riskResult.primary_gene,
        diplotype := riskResult.diplotype,
        phenotype := riskResult.phenotype,
        detected_variants := riskResult.detected_variants },
    clinical_recommendation :=
      { action := riskResult.action,
        dosing_recommendation := riskResult.dosing_recommendation },
    llm_generated_explanation := llmExplanation,
    quality_metrics :=
      { vcf_parsing_success := vcfSuccess,
        variants_detected := relevantCount,
        supported_gene_detected :=
          geneDetected ∧ SUPPORTED_GENES.contains riskResult.primary_gene,
        cpic_guideline_version := "2024.1" } }

/-- `generateJSON` – assembles the report, validates it, and throws
(`Except.error`) on violation instead of returning it.  The unused
`_totalVariants` argument of the source is dropped (the count comes from
`riskResult.detected_variants`). -/
def generateJSON (dateParses : String → Bool) (now patientId : String)
    (riskResult : RiskResult) (vcfSuccess : Bool)
    (llmExplanation : LLMExplanation) : Except String Report :=
  let report := assembleReport now patientId riskResult vcfSuccess llmExplanation
  match validateSchema dateParses report with
  | some validationError => .error ("Schema validation failed: " ++ validationError)
  | none => .ok report

/- ── 5. Explanation provider ────────────────────────────────── -/

/-- Shared trailer of the fallback summaries (`FALLBACK_BASE`). -/
def FALLBACK_BASE : String :=
  "Based on detected variant and CPIC guidelines, this risk assessment is derived from pharmacogenomic evidence."

/-- The fallback `summaryMap`, keyed by risk label. -/
def fallbackSummary (r : RiskResult) : String :=
  match r.risk_label with
  | .Safe => r.primary_gene ++ " diplotype " ++ r.diplotype ++ " confers " ++
      r.phenotype ++ " status — standard " ++ r.drug ++
      " dosing is appropriate without pharmacogenomic contraindication. " ++ FALLBACK_BASE
  | .AdjustDosage => r.primary_gene ++ " diplotype " ++ r.diplotype ++ " indicates " ++
      r.phenotype ++ ", requiring modified " ++ r.drug ++ " dosing. " ++ FALLBACK_BASE
  | .Toxic => r.primary_gene ++ " diplotype " ++ r.diplotype ++
      " creates a high-toxicity risk with " ++ r.drug ++
      " — therapy change is recommended. " ++ FALLBACK_BASE
  | .Ineffective => r.primary_gene ++ " diplotype " ++ r.diplotype ++ " indicates " ++
      r.phenotype ++ ", significantly reducing " ++ r.drug ++
      " therapeutic efficacy. " ++ FALLBACK_BASE
  | .Unknown => "Insufficient pharmacogenomic data to assess " ++ r.drug ++
      " interaction. " ++ FALLBACK_BASE

/-- The fallback `mechanismMap`, keyed by gene symbol. -/
def fallbackMechanisms (r : RiskResult) : List (String × String) :=
  [("CYP2D6", "CYP2D6 encodes a major cytochrome P450 enzyme responsible for oxidative metabolism of "
      ++ r.drug ++ " and ~25% of all clinically used drugs. The " ++ r.diplotype ++
      " diplotype produces " ++ jsToLower r.phenotype ++
      ", directly altering drug bioactivation rates and active metabolite concentrations."),
   ("CYP2C19", "CYP2C19 mediates hepatic bioactivation of prodrugs including " ++ r.drug ++
      ". The " ++ r.diplotype ++
      " diplotype alters enzyme kinetics (Vmax/Km), changing the rate of conversion to pharmacologically active metabolites and downstream receptor binding."),
   ("CYP2C9", "CYP2C9 is the primary enzyme catalysing S-warfarin 7-hydroxylation and clearance. The "
      ++ r.diplotype ++ " diplotype impairs enzyme function, extending " ++ r.drug ++
      " half-life and increasing systemic exposure, raising bleeding risk."),
   ("SLCO1B1", "SLCO1B1 encodes the hepatic uptake transporter OATP1B1. The " ++ r.diplotype ++
      " variant reduces transporter expression/function, causing elevated plasma " ++ r.drug ++
      " concentrations and increased skeletal muscle exposure, raising myopathy risk."),
   ("TPMT", "TPMT catalyses S-methylation of thiopurine drugs including " ++ r.drug ++
      ". The " ++ r.diplotype ++
      " diplotype reduces TPMT activity, causing accumulation of cytotoxic 6-thioguanine nucleotides (6-TGN) in haematopoietic cells, leading to life-threatening myelosuppression."),
   ("DPYD", "DPYD encodes dihydropyrimidine dehydrogenase, the rate-limiting enzyme responsible for >80% of "
      ++ r.drug ++ " catabolism. The " ++ r.diplotype ++
      " diplotype severely impairs DPD function, causing dose-dependent fluoropyrimidine accumulation and systemic toxicity.")]

/-- `generateFallbackExplanation` – the deterministic CPIC-aligned
explanation used when no API key is set or the LLM call fails. -/
def generateFallbackExplanation (r : RiskResult) : LLMExplanation :=
  { summary := fallbackSummary r,
    mechanism := jsOr (getTag (fallbackMechanisms r) r.primary_gene)
      (r.primary_gene ++ " enzyme/transporter activity is altered by the " ++
       r.diplotype ++ " diplotype, affecting " ++ r.drug ++
       " pharmacokinetics and pharmacodynamics. " ++ FALLBACK_BASE),
    clinical_impact := r.action }

/-- `callLLM` – with no API key configured the deterministic fallback is
returned immediately; with a key the network branch runs, whose outcome
(already folded through the source's response parsing and its own
fallback-on-failure) is the environment parameter `remote`. -/
def callLLM (apiKey : String) (remote : RiskResult → LLMExplanation)
    (riskResult : RiskResult) : LLMExplanation :=
  if apiKey = "" then generateFallbackExplanation riskResult
  else remote riskResult

/- ── 6. Patient ID generator ────────────────────────────────── -/

/-- Alphabet of `generatePatientId`. -/
def PATIENT_ID_CHARS : String := "ABCDEFGHIJKLMNOPQRSTUVWXYZ0123456789"

/-- `generatePatientId` – `PG-` plus 6 characters drawn by the RNG, which
is passed in as `rng` (`Math.floor(Math.random() * chars.length)`). -/
def generatePatientId (rng : Nat → Nat) : String :=
  "PG-" ++ String.mk ((List.range 6).map
    (fun i => PATIENT_ID_CHARS.data.getD (rng i % PATIENT_ID_CHARS.data.length) 'A'))

/- ── 7. Analysis orchestrator ───────────────────────────────── -/

/-- Result of `runAnalysis` (interface `AnalysisResult`). -/
structure AnalysisResult where
  patientId : String
  drugs : List String
  variants : List DetectedVariant
  variantsFound : Nat
  vcfSuccess : Bool
  reports : List Report
  riskResults : List RiskResult
  schemaErrors : List String
deriving Repr

/-- The per-drug loop of `runAnalysis`: `seen` is the case-insensitive
dedup set, `i` counts the `generateJSON` calls made so far (the `clock`
stream gives each call's `new Date().toISOString()` value).  Returns
`(reports, riskResults, schemaErrors)`. -/
def runAnalysisLoop (dateParses : String → Bool) (clock : Nat → String)
    (patientId apiKey : String) (remote : RiskResult → LLMExplanation)
    (parsedVariants : List DetectedVariant) (vcfSuccess : Bool) :
    List String → List String → Nat →
    List Report × List RiskResult × List String
  | [], _, _ => ([], [], [])
  | drug :: rest, seen, i =>
    let key := jsToUpper drug
    if seen.contains key then
      runAnalysisLoop dateParses clock patientId apiKey remote parsedVariants
        vcfSuccess rest seen i
    else
      let riskResult := classifyRisk drug parsedVariants
      let llmExplanation := callLLM apiKey remote riskResult
      let res := generateJSON dateParses (clock i) patientId riskResult
        vcfSuccess llmExplanation
      let tail := runAnalysisLoop dateParses clock patientId apiKey remote
        parsedVariants vcfSuccess rest (key :: seen) (i + 1)
      match res with
      | .ok report => (report :: tail.1, riskResult :: tail.2.1, tail.2.2)
      | .error e => (tail.1, riskResult :: tail.2.1, e :: tail.2.2)

/-- `runAnalysis` – the full pipeline: trim and drop empty drug entries,
parse the VCF once, generate one patient id, then classify, explain and
assemble per distinct drug, collecting successful reports and schema
errors. -/
def runAnalysis (dateParses : String → Bool) (clock : Nat → String)
    (rng : Nat → Nat) (apiKey : String) (remote : RiskResult → LLMExplanation)
    (vcfContent : String) (drugs : List String) : AnalysisResult :=
  let normalisedDrugs := (drugs.map jsTrim).filter (fun d => d ≠ "")
  let parsed := parseVCF vcfContent
  let patientId := generatePatientId rng
  let res := runAnalysisLoop dateParses clock patientId apiKey remote
    parsed.variants parsed.success normalisedDrugs [] 0
  { patientId := patientId, drugs := normalisedDrugs,
    variants := parsed.variants, variantsFound := parsed.variantsFound,
    vcfSuccess := parsed.success, reports := res.1,
    riskResults := res.2.1, schemaErrors := res.2.2 }

/- ── General lemmas ─────────────────────────────────────────── -/

theorem string_data_append (a b : String) : (a ++ b).data = a.data ++ b.data := rfl

theorem string_eq_empty_iff (s : String) : s = "" ↔ s.data = [] := by
  cases s with
  | mk data => simp [String.ext_iff]

theorem append_ne_empty_right (a b : String) (h : b ≠ "") : a ++ b ≠ "" := by
  intro hc
  apply h
  rw [string_eq_empty_iff] at hc ⊢
  rw [string_data_append] at hc
  exact (List.append_eq_nil.mp hc).2

theorem alookup_of_mem {α : Type} {l : List (String × α)} {k : String} {v : α}
    (hmem : (k, v) ∈ l) (hnd : (l.map Prod.fst).Nodup) : alookup l k = some v := by
  induction l with
  | nil => cases hmem
  | cons p rest ih =>
    rw [List.map_cons, List.nodup_cons] at hnd
    rcases List.mem_cons.mp hmem with heq | htail
    · subst heq
      simp [alookup]
    · have hk : p.1 ≠ k := by
        intro hpk
        exact hnd.1 (hpk ▸ (List.mem_map.mpr ⟨(k, v), htail, rfl⟩))
      simpa [alookup, hk] using ih htail hnd.2

theorem mem_of_alookup {α : Type} {l : List (String × α)} {k : String} {v : α}
    (h : alookup l k = some v) : (k, v) ∈ l := by
  induction l with
  | nil => simp [alookup] at h
  | cons p rest ih =>
    by_cases hk : p.1 = k
    · rw [alookup, if_pos hk] at h
      exact List.mem_cons.mpr (Or.inl (by cases p; cases h; cases hk; rfl))
    · rw [alookup, if_neg hk] at h
      exact List.mem_cons.mpr (Or.inr (ih h))

/- ── Branch characterizations of classifyRisk ───────────────── -/

/-- The gene-filtered variant list of a classification. -/
def relevantFor (gene : String) (variants : List DetectedVariant) :
    List DetectedVariant :=
  variants.filter (fun v => v.gene == gene)

/-- The diplotype string `classifyRisk` computes for a non-empty relevant
list (the source's non-null assertion on `determineDiplotype`). -/
def riskDiplotype (rv : List DetectedVariant) : String :=
  (determineDiplotype rv).getD "Unknown"

theorem classifyRisk_unmapped (drug : String) (variants : List DetectedVariant)
    (h : alookup DRUG_GENE_MAP (jsTrim (jsToUpper drug)) = none) :
    classifyRisk drug variants =
      { drug := jsTrim (jsToUpper drug), risk_label := .Unknown,
        severity := .moderate, confidence_score := 0.4,
        phenotype := "Unknown", diplotype := "Unknown",
        primary_gene := "Not detected",
        action := "Drug \"" ++ jsTrim (jsToUpper drug) ++
          "\" is not in the supported drug-gene map. Apply standard clinical guidelines.",
        dosing_recommendation :=
          "Use standard dosing per prescribing information. No pharmacogenomic data available.",
        detected_variants := [] } := by
  simp only [classifyRisk, h]

theorem classifyRisk_noVariants (drug : String) (variants : List DetectedVariant)
    (gene : String)
    (h : alookup DRUG_GENE_MAP (jsTrim (jsToUpper drug)) = some gene)
    (hrel : relevantFor gene variants = []) :
    classifyRisk drug variants =
      { drug := jsTrim (jsToUpper drug), risk_label := .Unknown,
        severity := .moderate, confidence_score := 0.4,
        phenotype := "Unknown", diplotype := "Unknown",
        primary_gene := gene,
        action := "No " ++ gene ++
          " variants detected in VCF. Cannot determine pharmacogenomic risk. Consult clinical pharmacogenomics specialist.",
        dosing_recommendation :=
          "Use standard dosing. Consider clinical pharmacogenomic testing for this gene.",
        detected_variants := [] } := by
  rw [relevantFor] at hrel
  simp only [classifyRisk, h, hrel, List.length_nil, if_true]

theorem classifyRisk_exact (drug : String) (variants : List DetectedVariant)
    (gene : String) (dr : DiplotypeRule) (rule : DrugRule)
    (h : alookup DRUG_GENE_MAP (jsTrim (jsToUpper drug)) = some gene)
    (hrel : relevantFor gene variants ≠ [])
    (hx : exactRule gene (riskDiplotype (relevantFor gene variants))
      (jsTrim (jsToUpper drug)) = some (dr, rule)) :
    classifyRisk drug variants =
      { drug := jsTrim (jsToUpper drug), risk_label := rule.risk,
        severity := rule.severity, confidence_score := 0.95,
        phenotype := dr.phenotype,
        diplotype := riskDiplotype (relevantFor gene variants),
        primary_gene := gene, action := rule.recommendation,
        dosing_recommendation := rule.dosing,
        detected_variants := relevantFor gene variants } := by
  rw [relevantFor] at hrel hx ⊢
  rw [riskDiplotype] at hx ⊢
  have hlen : ¬ (variants.filter (fun v => v.gene == gene)).length = 0 := by
    simpa [List.length_eq_zero] using hrel
  simp only [classifyRisk, h, hlen, if_false, hx]

theorem classifyRisk_heuristic (drug : String) (variants : List DetectedVariant)
    (gene : String)
    (h : alookup DRUG_GENE_MAP (jsTrim (jsToUpper drug)) = some gene)
    (hrel : relevantFor gene variants ≠ [])
    (hx : exactRule gene (riskDiplotype (relevantFor gene variants))
      (jsTrim (jsToUpper drug)) = none) :
    classifyRisk drug variants =
      { drug := jsTrim (jsToUpper drug),
        risk_label := (deriveRiskFromPhenotype (jsTrim (jsToUpper drug))
          (determinePhenotype (relevantFor gene variants) gene) gene).risk_label,
        severity := (deriveRiskFromPhenotype (jsTrim (jsToUpper drug))
          (determinePhenotype (relevantFor gene variants) gene) gene).severity,
        confidence_score := 0.75,
        phenotype := determinePhenotype (relevantFor gene variants) gene,
        diplotype := riskDiplotype (relevantFor gene variants),
        primary_gene := gene,
        action := (deriveRiskFromPhenotype (jsTrim (jsToUpper drug))
          (determinePhenotype (relevantFor gene variants) gene) gene).action,
        dosing_recommendation := (deriveRiskFromPhenotype (jsTrim (jsToUpper drug))
          (determinePhenotype (relevantFor gene variants) gene) gene).dosing,
        detected_variants := relevantFor gene variants } := by
  rw [relevantFor] at hrel hx ⊢
  rw [riskDiplotype] at hx ⊢
  have hlen : ¬ (variants.filter (fun v => v.gene == gene)).length = 0 := by
    simpa [List.length_eq_zero] using hrel
  simp only [classifyRisk, h, hlen, if_false, hx]

/- ── Decidable facts about the static rule data ─────────────── -/

/-- Keys are distinct at every level of the rule database, so
association-list membership determines lookup. -/
theorem db_keys_nodup :
    (pharmacogenomicDB.map Prod.fst).Nodup ∧
    ∀ p ∈ pharmacogenomicDB, (p.2.map Prod.fst).Nodup ∧
      ∀ q ∈ p.2, (q.2.drugs.map Prod.fst).Nodup := by decide

/-- Every drug key of the database is a fixed point of canonicalization
and routes, via the drug → gene map, to the gene it is filed under. -/
theorem db_drug_keys_consistent :
    ∀ p ∈ pharmacogenomicDB, ∀ q ∈ p.2, ∀ d ∈ q.2.drugs,
      jsTrim (jsToUpper d.1) = d.1 ∧ alookup DRUG_GENE_MAP d.1 = some p.1 := by
  decide

/-- Every rule of the database carries non-empty recommendation and
dosing text. -/
theorem db_rules_nonempty :
    ∀ p ∈ pharmacogenomicDB, ∀ q ∈ p.2, ∀ d ∈ q.2.drugs,
      d.2.recommendation ≠ "" ∧ d.2.dosing ≠ "" := by decide

/-- Every gene the drug → gene map can require has an activity-score
table. -/
theorem mapped_genes_have_scores :
    ∀ p ∈ DRUG_GENE_MAP, (alookup ACTIVITY_SCORES p.2).isSome := by decide

/- ── Claim C2 ───────────────────────────────────────────────── -/

/-- Claim C2: for every drug string and variant list, an unmapped drug
(trimmed, uppercased name not a key of the drug → gene map) classifies
as Unknown with confidence 0.40, primary gene "Not detected" and no
detected variants; a mapped drug whose required gene has no variant in
the list classifies as Unknown (never Safe) with confidence 0.40,
primary gene the required gene, and no detected variants. -/
theorem classifyRisk_unknown_tiers :
    (∀ (drug : String) (variants : List DetectedVariant),
      alookup DRUG_GENE_MAP (jsTrim (jsToUpper drug)) = none →
        (classifyRisk drug variants).risk_label = .Unknown ∧
        (classifyRisk drug variants).confidence_score = 0.40 ∧
        (classifyRisk drug variants).primary_gene = "Not detected" ∧
        (classifyRisk drug variants).detected_variants = []) ∧
    (∀ (drug : String) (variants : List DetectedVariant) (gene : String),
      alookup DRUG_GENE_MAP (jsTrim (jsToUpper drug)) = some gene →
      (∀ v ∈ variants, v.gene ≠ gene) →
        (classifyRisk drug variants).risk_label = .Unknown ∧
        (classifyRisk drug variants).risk_label ≠ .Safe ∧
        (classifyRisk drug variants).confidence_score = 0.40 ∧
        (classifyRisk drug variants).primary_gene = gene ∧
        (classifyRisk drug variants).detected_variants = []) := by
  constructor
  · intro drug variants h
    rw [classifyRisk_unmapped drug variants h]
    refine ⟨rfl, by norm_num, rfl, rfl⟩
  · intro drug variants gene h hnone
    have hrel : relevantFor gene variants = [] := by
      rw [relevantFor, List.filter_eq_nil_iff]
      intro v hv
      simpa using hnone v hv
    rw [classifyRisk_noVariants drug variants gene h hrel]
    refine ⟨rfl, by simp, by norm_num, rfl, rfl⟩

/-- Witness for C2: the unmapped drug ASPIRIN and the mapped drug
WARFARIN with no CYP2C9 variant supplied. -/
theorem classifyRisk_unknown_tiers_witness :
    (classifyRisk "ASPIRIN" []).primary_gene = "Not detected" ∧
    (classifyRisk "ASPIRIN" []).confidence_score = 0.40 ∧
    (classifyRisk "WARFARIN" []).primary_gene = "CYP2C9" ∧
    (classifyRisk "WARFARIN" []).risk_label = .Unknown :=
  ⟨(classifyRisk_unknown_tiers.1 "ASPIRIN" [] (by decide)).2.2.1,
   (classifyRisk_unknown_tiers.1 "ASPIRIN" [] (by decide)).2.1,
   (classifyRisk_unknown_tiers.2 "WARFARIN" [] "CYP2C9" (by decide)
     (by intro v hv; cases hv)).2.2.2.1,
   (classifyRisk_unknown_tiers.2 "WARFARIN" [] "CYP2C9" (by decide)
     (by intro v hv; cases hv)).1⟩

/- ── Claim C10 ──────────────────────────────────────────────── -/

/-- Claim C10: for every drug string and variant list, the verdict's
detected-variant list is empty exactly when its confidence score is
0.40; the confidence score is always one of 0.40, 0.75, 0.95, so every
0.75- or 0.95-tier verdict carries at least one detected variant. -/
theorem detected_variants_empty_iff_low_confidence :
    ∀ (drug : String) (variants : List DetectedVariant),
      ((classifyRisk drug variants).detected_variants = [] ↔
        (classifyRisk drug variants).confidence_score = 0.40) ∧
      ((classifyRisk drug variants).confidence_score = 0.40 ∨
       (classifyRisk drug variants).confidence_score = 0.75 ∨
       (classifyRisk drug variants).confidence_score = 0.95) := by
  intro drug variants
  rcases hmap : alookup DRUG_GENE_MAP (jsTrim (jsToUpper drug)) with _ | gene
  · rw [classifyRisk_unmapped drug variants hmap]
    exact ⟨by norm_num, by norm_num⟩
  · by_cases hrel : relevantFor gene variants = []
    · rw [classifyRisk_noVariants drug variants gene hmap hrel]
      exact ⟨by norm_num, by norm_num⟩
    · rcases hx : exactRule gene (riskDiplotype (relevantFor gene variants))
        (jsTrim (jsToUpper drug)) with _ | ⟨dr, rule⟩
      · rw [classifyRisk_heuristic drug variants gene hmap hrel hx]
        refine ⟨⟨fun hc => absurd hc hrel, fun hc => by norm_num at hc⟩, by norm_num⟩
      · rw [classifyRisk_exact drug variants gene dr rule hmap hrel hx]
        refine ⟨⟨fun hc => absurd hc hrel, fun hc => by norm_num at hc⟩, by norm_num⟩

/- ── Claim C5 ───────────────────────────────────────────────── -/

/-- Claim C5: diplotype construction — zero relevant variants yield no
diplotype; one variant with allele `a` yields `*1/a`; two or more yield
`a1/a2` from the first two variants in parse order, while the full
gene-filtered list is retained in the verdict's detected variants. -/
theorem diplotype_construction :
    (determineDiplotype [] = none) ∧
    (∀ v : DetectedVariant, v.star_allele ≠ "" →
      determineDiplotype [v] = some ("*1/" ++ v.star_allele)) ∧
    (∀ (v1 v2 : DetectedVariant) (rest : List DetectedVariant),
      v1.star_allele ≠ "" → v2.star_allele ≠ "" →
      determineDiplotype (v1 :: v2 :: rest) =
        some (v1.star_allele ++ "/" ++ v2.star_allele)) ∧
    (∀ (drug : String) (variants : List DetectedVariant) (gene : String),
      alookup DRUG_GENE_MAP (jsTrim (jsToUpper drug)) = some gene →
      relevantFor gene variants ≠ [] →
      (classifyRisk drug variants).detected_variants = relevantFor gene variants) := by
  refine ⟨rfl, ?_, ?_, ?_⟩
  · intro v h
    simp [determineDiplotype, jsStar, jsOr, h]
  · intro v1 v2 rest h1 h2
    simp [determineDiplotype, jsStar, jsOr, h1, h2]
  · intro drug variants gene hmap hrel
    rcases hx : exactRule gene (riskDiplotype (relevantFor gene variants))
      (jsTrim (jsToUpper drug)) with _ | ⟨dr, rule⟩
    · rw [classifyRisk_heuristic drug variants gene hmap hrel hx]
    · rw [classifyRisk_exact drug variants gene dr rule hmap hrel hx]

/-- Witness for C5: a single `*4` CYP2D6 variant pairs with `*1`; two
variants pair in parse order with a third ignored for the diplotype but
kept in the verdict. -/
theorem diplotype_construction_witness :
    determineDiplotype [{ rsid := "rs1", gene := "CYP2D6", star_allele := "*4" }] =
      some "*1/*4" ∧
    determineDiplotype
      [{ rsid := "rs1", gene := "CYP2D6", star_allele := "*4" },
       { rsid := "rs2", gene := "CYP2D6", star_allele := "*10" },
       { rsid := "rs3", gene := "CYP2D6", star_allele := "*41" }] = some "*4/*10" ∧
    (classifyRisk "METOPROLOL"
      [{ rsid := "rs1", gene := "CYP2D6", star_allele := "*4" }]).detected_variants =
      [{ rsid := "rs1", gene := "CYP2D6", star_allele := "*4" }] :=
  ⟨diplotype_construction.2.1 { rsid := "rs1", gene := "CYP2D6", star_allele := "*4" }
     (by decide),
   diplotype_construction.2.2.1
     { rsid := "rs1", gene := "CYP2D6", star_allele := "*4" }
     { rsid := "rs2", gene := "CYP2D6", star_allele := "*10" }
     [{ rsid := "rs3", gene := "CYP2D6", star_allele := "*41" }]
     (by decide) (by decide),
   diplotype_construction.2.2.2 "METOPROLOL"
     [{ rsid := "rs1", gene := "CYP2D6", star_allele := "*4" }] "CYP2D6"
     (by decide) (by decide)⟩

/- ── Claim C4 ───────────────────────────────────────────────── -/

/-- Stated from the claim: the two diplotype alleles of a relevant
variant list — a single variant is paired with the reference allele
`*1`, otherwise the first two variants' alleles are used. -/
def claimDiplotypeAlleles : List DetectedVariant → List String
  | [] => []
  | [v] => ["*1", jsStar v]
  | v1 :: v2 :: _ => [jsStar v1, jsStar v2]

/-- Claim C4: for a gene with an activity-score table and a non-empty
relevant list, the phenotype comes from summing the two diplotype
alleles' activity values (unlisted alleles scoring 0) with thresholds
s = 0 → Poor, 0 < s ≤ 1 → Intermediate, 1 < s ≤ 2 → Normal, s > 2 →
Ultrarapid (so s = 1 is Intermediate and s = 2 is Normal); a gene with
no activity table yields Unknown. -/
theorem activity_score_phenotype :
    (∀ (gene : String) (vs : List DetectedVariant),
      alookup ACTIVITY_SCORES gene = none → determinePhenotype vs gene = "Unknown") ∧
    (∀ (gene : String) (scores : List (String × ℚ)) (vs : List DetectedVariant),
      alookup ACTIVITY_SCORES gene = some scores → vs ≠ [] →
      ∀ s : ℚ,
        s = (claimDiplotypeAlleles vs).foldl
          (fun t a => t + ((alookup scores a).getD 0)) 0 →
        ((s = 0 → determinePhenotype vs gene = "Poor Metabolizer (PM)") ∧
         (0 < s ∧ s ≤ 1 → determinePhenotype vs gene = "Intermediate Metabolizer (IM)") ∧
         (1 < s ∧ s ≤ 2 → determinePhenotype vs gene = "Normal Metabolizer (NM)") ∧
         (2 < s → determinePhenotype vs gene = "Ultrarapid Metabolizer (UM)"))) := by
  constructor
  · intro gene vs h
    simp [determinePhenotype, h]
  · intro gene scores vs hs hne s hsum
    have hmain : determinePhenotype vs gene =
        (if s = 0 then "Poor Metabolizer (PM)"
         else if s ≤ 1 then "Intermediate Metabolizer (IM)"
         else if s ≤ 2 then "Normal Metabolizer (NM)"
         else "Ultrarapid Metabolizer (UM)") := by
      rcases vs with _ | ⟨v1, _ | ⟨v2, rest⟩⟩
      · exact absurd rfl hne
      · subst hsum
        simp [determinePhenotype, hs, claimDiplotypeAlleles]
      · subst hsum
        simp [determinePhenotype, hs, claimDiplotypeAlleles]
    refine ⟨?_, ?_, ?_, ?_⟩
    · intro h0
      rw [hmain, if_pos h0]
    · intro h01
      rw [hmain, if_neg (ne_of_gt h01.1), if_pos h01.2]
    · intro h12
      rw [hmain, if_neg (ne_of_gt (lt_trans (by norm_num : (0:ℚ) < 1) h12.1)),
        if_neg (not_le.mpr h12.1), if_pos h12.2]
    · intro h2
      rw [hmain, if_neg (ne_of_gt (lt_trans (by norm_num : (0:ℚ) < 2) h2)),
        if_neg (not_le.mpr (lt_trans (by norm_num : (1:ℚ) < 2) h2)),
        if_neg (not_le.mpr h2)]

/-- Witness for C4: CYP2D6 `*10/*10` sums to exactly 1 (Intermediate),
a single CYP2D6 `*1` variant pairs to `*1/*1` summing to exactly 2
(Normal), and a gene with no activity table is Unknown. -/
theorem activity_score_phenotype_witness :
    determinePhenotype [] "HLA-B" = "Unknown" ∧
    determinePhenotype
      [{ rsid := "rs1", gene := "CYP2D6", star_allele := "*10" },
       { rsid := "rs2", gene := "CYP2D6", star_allele := "*10" }] "CYP2D6" =
      "Intermediate Metabolizer (IM)" ∧
    determinePhenotype [{ rsid := "rs1", gene := "CYP2D6", star_allele := "*1" }]
      "CYP2D6" = "Normal Metabolizer (NM)" :=
  ⟨activity_score_phenotype.1 "HLA-B" [] (by decide),
   ((activity_score_phenotype.2 "CYP2D6"
      [("*1", 1.0), ("*2", 1.0), ("*4", 0.0), ("*5", 0.0),
       ("*10", 0.5), ("*41", 0.5), ("*1xN", 3.0)]
      [{ rsid := "rs1", gene := "CYP2D6", star_allele := "*10" },
       { rsid := "rs2", gene := "CYP2D6", star_allele := "*10" }]
      (by rfl) (by decide) 1
      (by simp [claimDiplotypeAlleles, jsStar, jsOr, alookup]
          norm_num)).2.1
      (by norm_num)),
   ((activity_score_phenotype.2 "CYP2D6"
      [("*1", 1.0), ("*2", 1.0), ("*4", 0.0), ("*5", 0.0),
       ("*10", 0.5), ("*41", 0.5), ("*1xN", 3.0)]
      [{ rsid := "rs1", gene := "CYP2D6", star_allele := "*1" }]
      (by rfl) (by decide) 2
      (by simp [claimDiplotypeAlleles, jsStar, jsOr, alookup]
          norm_num)).2.2.1
      (by norm_num))⟩

/- ── Claim C1 ───────────────────────────────────────────────── -/

/-- Claim C1: for every (gene, diplotype) entry of the rule database
defining a rule for a drug, classifying that drug against a variant
list whose variants for that gene are exactly the diplotype's two
alleles, in key order, returns confidence exactly 0.95 with the rule's
risk, severity, recommendation and dosing text verbatim, and the
gene-filtered list as detected variants. -/
theorem exact_rule_verbatim :
    ∀ (gene : String) (dmap : List (String × DiplotypeRule)),
      (gene, dmap) ∈ pharmacogenomicDB →
    ∀ (diplo : String) (dr : DiplotypeRule), (diplo, dr) ∈ dmap →
    ∀ (drug : String) (rule : DrugRule), (drug, rule) ∈ dr.drugs →
    ∀ (a1 a2 : String), diplo = a1 ++ "/" ++ a2 → a1 ≠ "" → a2 ≠ "" →
    ∀ (variants : List DetectedVariant) (v1 v2 : DetectedVariant),
      relevantFor gene variants = [v1, v2] →
      v1.star_allele = a1 → v2.star_allele = a2 →
      (classifyRisk drug variants).confidence_score = 0.95 ∧
      (classifyRisk drug variants).risk_label = rule.risk ∧
      (classifyRisk drug variants).severity = rule.severity ∧
      (classifyRisk drug variants).action = rule.recommendation ∧
      (classifyRisk drug variants).dosing_recommendation = rule.dosing ∧
      (classifyRisk drug variants).detected_variants = relevantFor gene variants := by
  intro gene dmap hg diplo dr hd drug rule hr a1 a2 hsplit ha1 ha2 variants v1 v2
    hrel hv1 hv2
  obtain ⟨hfix, hmap⟩ :=
    db_drug_keys_consistent (gene, dmap) hg (diplo, dr) hd (drug, rule) hr
  have hmap' : alookup DRUG_GENE_MAP (jsTrim (jsToUpper drug)) = some gene := by
    rw [hfix]; exact hmap
  have hne : relevantFor gene variants ≠ [] := by rw [hrel]; simp
  have hdip : riskDiplotype (relevantFor gene variants) = diplo := by
    rw [hrel, riskDiplotype, determineDiplotype]
    simp [jsStar, jsOr, hv1, hv2, ha1, ha2, hsplit]
  have hnd := db_keys_nodup
  have hlook1 : alookup pharmacogenomicDB gene = some dmap :=
    alookup_of_mem hg hnd.1
  have hlook2 : alookup dmap diplo = some dr :=
    alookup_of_mem hd (hnd.2 (gene, dmap) hg).1
  have hlook3 : alookup dr.drugs drug = some rule :=
    alookup_of_mem hr ((hnd.2 (gene, dmap) hg).2 (diplo, dr) hd)
  have hx : exactRule gene (riskDiplotype (relevantFor gene variants))
      (jsTrim (jsToUpper drug)) = some (dr, rule) := by
    rw [hdip, hfix]
    simp only [exactRule, hlook1, hlook2, hlook3, Option.map]
  rw [classifyRisk_exact drug variants gene dr rule hmap' hne hx]
  exact ⟨rfl, rfl, rfl, rfl, rfl, rfl⟩

/-- Witness for C1: the CYP2D6 `*1/*4` CODEINE rule, matched by a
variant list carrying exactly the alleles `*1` and `*4`. -/
theorem exact_rule_verbatim_witness :
    (classifyRisk "CODEINE"
      [{ rsid := "rs1", gene := "CYP2D6", star_allele := "*1" },
       { rsid := "rs2", gene := "CYP2D6", star_allele := "*4" }]).confidence_score
      = 0.95 ∧
    (classifyRisk "CODEINE"
      [{ rsid := "rs1", gene := "CYP2D6", star_allele := "*1" },
       { rsid := "rs2", gene := "CYP2D6", star_allele := "*4" }]).action
      = CYP2D6_s1_s4_CODEINE.recommendation :=
  have h := exact_rule_verbatim "CYP2D6" DB_CYP2D6 (List.mem_cons_self _ _)
    "*1/*4" CYP2D6_s1_s4 (List.mem_cons_of_mem _ (List.mem_cons_self _ _))
    "CODEINE" CYP2D6_s1_s4_CODEINE (List.mem_cons_self _ _)
    "*1" "*4" rfl (by decide) (by decide)
    [{ rsid := "rs1", gene := "CYP2D6", star_allele := "*1" },
     { rsid := "rs2", gene := "CYP2D6", star_allele := "*4" }]
    { rsid := "rs1", gene := "CYP2D6", star_allele := "*1" }
    { rsid := "rs2", gene := "CYP2D6", star_allele := "*4" }
    rfl rfl rfl
  ⟨h.1, h.2.2.2.1⟩

/- ── Claim C3 ───────────────────────────────────────────────── -/

/-- Claim C3: for a mapped drug with at least one relevant variant but
no exact (gene, diplotype, drug) rule, the verdict has confidence 0.75,
the gene-filtered list as detected variants, and is derived from the
phenotype label: Poor → Ineffective for the fixed prodrug set
{CODEINE, TRAMADOL, CLOPIDOGREL} else Toxic, severity high;
Intermediate → Adjust Dosage, moderate; Ultrarapid → Toxic/critical for
the prodrug set else Adjust Dosage/moderate; Normal or Rapid → Safe,
none. -/
theorem phenotype_fallback_tier :
    ∀ (drug : String) (variants : List DetectedVariant) (gene : String),
      alookup DRUG_GENE_MAP (jsTrim (jsToUpper drug)) = some gene →
      relevantFor gene variants ≠ [] →
      exactRule gene (riskDiplotype (relevantFor gene variants))
        (jsTrim (jsToUpper drug)) = none →
      (classifyRisk drug variants).confidence_score = 0.75 ∧
      (classifyRisk drug variants).detected_variants = relevantFor gene variants ∧
      (classifyRisk drug variants).phenotype =
        determinePhenotype (relevantFor gene variants) gene ∧
      ((classifyRisk drug variants).phenotype = "Poor Metabolizer (PM)" →
        (classifyRisk drug variants).risk_label =
          (if ["CODEINE", "TRAMADOL", "CLOPIDOGREL"].contains (jsTrim (jsToUpper drug))
           then .Ineffective else .Toxic) ∧
        (classifyRisk drug variants).severity = .high) ∧
      ((classifyRisk drug variants).phenotype = "Intermediate Metabolizer (IM)" →
        (classifyRisk drug variants).risk_label = .AdjustDosage ∧
        (classifyRisk drug variants).severity = .moderate) ∧
      ((classifyRisk drug variants).phenotype = "Ultrarapid Metabolizer (UM)" →
        (classifyRisk drug variants).risk_label =
          (if ["CODEINE", "TRAMADOL", "CLOPIDOGREL"].contains (jsTrim (jsToUpper drug))
           then .Toxic else .AdjustDosage) ∧
        (classifyRisk drug variants).severity =
          (if ["CODEINE", "TRAMADOL", "CLOPIDOGREL"].contains (jsTrim (jsToUpper drug))
           then .critical else .moderate)) ∧
      ((classifyRisk drug variants).phenotype = "Normal Metabolizer (NM)" ∨
       (classifyRisk drug variants).phenotype = "Rapid Metabolizer (RM)" →
        (classifyRisk drug variants).risk_label = .Safe ∧
        (classifyRisk drug variants).severity = Severity.none) := by
  intro drug variants gene hmap hrel hx
  rw [classifyRisk_heuristic drug variants gene hmap hrel hx]
  refine ⟨rfl, rfl, rfl, ?_, ?_, ?_, ?_⟩
  · intro h
    simp only at h
    rw [show (deriveRiskFromPhenotype (jsTrim (jsToUpper drug))
      (determinePhenotype (relevantFor gene variants) gene) gene) =
      (deriveRiskFromPhenotype (jsTrim (jsToUpper drug)) "Poor Metabolizer (PM)" gene)
      from by rw [h]]
    exact ⟨rfl, rfl⟩
  · intro h
    simp only at h
    rw [show (deriveRiskFromPhenotype (jsTrim (jsToUpper drug))
      (determinePhenotype (relevantFor gene variants) gene) gene) =
      (deriveRiskFromPhenotype (jsTrim (jsToUpper drug)) "Intermediate Metabolizer (IM)" gene)
      from by rw [h]]
    exact ⟨rfl, rfl⟩
  · intro h
    simp only at h
    rw [show (deriveRiskFromPhenotype (jsTrim (jsToUpper drug))
      (determinePhenotype (relevantFor gene variants) gene) gene) =
      (deriveRiskFromPhenotype (jsTrim (jsToUpper drug)) "Ultrarapid Metabolizer (UM)" gene)
      from by rw [h]]
    exact ⟨rfl, rfl⟩
  · intro h
    simp only at h
    rcases h with h | h <;>
      [rw [show (deriveRiskFromPhenotype (jsTrim (jsToUpper drug))
        (determinePhenotype (relevantFor gene variants) gene) gene) =
        (deriveRiskFromPhenotype (jsTrim (jsToUpper drug)) "Normal Metabolizer (NM)" gene)
        from by rw [h]];
       rw [show (deriveRiskFromPhenotype (jsTrim (jsToUpper drug))
        (determinePhenotype (relevantFor gene variants) gene) gene) =
        (deriveRiskFromPhenotype (jsTrim (jsToUpper drug)) "Rapid Metabolizer (RM)" gene)
        from by rw [h]]] <;>
    exact ⟨rfl, rfl⟩

/-- Witness for C3: WARFARIN with a CYP2C9 `*2/*2` variant pair (no such
diplotype key in the database) — activity sum 1, Intermediate, Adjust
Dosage at confidence 0.75. -/
theorem phenotype_fallback_tier_witness :
    (classifyRisk "WARFARIN"
      [{ rsid := "rs1", gene := "CYP2C9", star_allele := "*2" },
       { rsid := "rs2", gene := "CYP2C9", star_allele := "*2" }]).confidence_score
      = 0.75 ∧
    (classifyRisk "WARFARIN"
      [{ rsid := "rs1", gene := "CYP2C9", star_allele := "*2" },
       { rsid := "rs2", gene := "CYP2C9", star_allele := "*2" }]).risk_label
      = .AdjustDosage :=
  have h := phenotype_fallback_tier "WARFARIN"
    [{ rsid := "rs1", gene := "CYP2C9", star_allele := "*2" },
     { rsid := "rs2", gene := "CYP2C9", star_allele := "*2" }] "CYP2C9"
    (by rfl) (by decide) (by rfl)
  have hph : (classifyRisk "WARFARIN"
      [{ rsid := "rs1", gene := "CYP2C9", star_allele := "*2" },
       { rsid := "rs2", gene := "CYP2C9", star_allele := "*2" }]).phenotype =
      "Intermediate Metabolizer (IM)" :=
    h.2.2.1.trans (by simp [determinePhenotype, relevantFor, alookup, jsStar, jsOr]
                      norm_num)
  ⟨h.1, (h.2.2.2.2.1 hph).1⟩

/- ── Claim C6 ───────────────────────────────────────────────── -/

/-- Claim C6: `parseVCF` returns `success = false` with an empty variant
list exactly when no input line begins with `##fileformat=VCF` or
`#CHROM`; with such a header present it returns `success = true`, and
any malformed data line (blank, comment, fewer than 8 tab-separated
fields, or no registered gene tag) is silently skipped rather than
failing the parse. -/
theorem parse_failure_iff_no_header :
    ∀ content : String,
      ((parseVCF content).success = false ∧ (parseVCF content).variants = [] ↔
        (jsSplitChar '\n' content).any
          (fun l => jsStartsWith l "##fileformat=VCF" || jsStartsWith l "#CHROM")
          = false) ∧
      ((jsSplitChar '\n' content).any
          (fun l => jsStartsWith l "##fileformat=VCF" || jsStartsWith l "#CHROM")
          = true →
        (parseVCF content).success = true) ∧
      (∀ l : String,
        jsTrim l = "" ∨ jsStartsWith (jsTrim l) "#" = true ∨
        (jsSplitChar '\t' (jsTrim l)).length < 8 ∨
        lineGene (parseInfoTags
          (jsOr ((jsSplitChar '\t' (jsTrim l)).getD 7 "") "")) = "" →
        parseVCFLine l = none) := by
  intro content
  refine ⟨?_, ?_, ?_⟩
  · rcases hh : (jsSplitChar '\n' content).any
      (fun l => jsStartsWith l "##fileformat=VCF" || jsStartsWith l "#CHROM") with _ | _
    · simp [parseVCF, hh]
    · simp [parseVCF, hh]
  · intro hh
    simp [parseVCF, hh]
  · intro l hcase
    by_cases h1 : (jsStartsWith (jsTrim l) "#" = true ∨ jsTrim l = "")
    · simp only [parseVCFLine]
      rw [if_pos h1]
    · rcases hcase with hc | hc | hc | hc
      · exact absurd (Or.inr hc) h1
      · exact absurd (Or.inl hc) h1
      · simp only [parseVCFLine]
        rw [if_neg h1, if_pos hc]
      · by_cases h2 : (jsSplitChar '\t' (jsTrim l)).length < 8
        · simp only [parseVCFLine]
          rw [if_neg h1, if_pos h2]
        · simp only [parseVCFLine]
          rw [if_neg h1, if_neg h2, if_neg (not_not_intro hc)]

/-- Witness for C6: a header-less input fails, a header-bearing input
with a malformed second line succeeds, and a short data line is
skipped. -/
theorem parse_failure_iff_no_header_witness :
    (parseVCF "no header line").success = false ∧
    (parseVCF "##fileformat=VCFv4.2\nbad line").success = true ∧
    parseVCFLine "short\tline" = none :=
  ⟨((parse_failure_iff_no_header "no header line").1.mpr (by decide)).1,
   (parse_failure_iff_no_header "##fileformat=VCFv4.2\nbad line").2.1 (by decide),
   (parse_failure_iff_no_header "").2.2 "short\tline"
     (Or.inr (Or.inr (Or.inl (by decide))))⟩

/- ── Claim C7 ───────────────────────────────────────────────── -/

/-- Counterexample to C7 as stated: the INFO field of a well-formed data
line holds the key `Gene` — case-insensitively equal to `gene` — with
the non-empty value `CYP2D6`, yet parsing registers no variant record,
because the code reads only the exact spellings `GENE` and `gene`. -/
theorem info_gene_case_counterexample :
    (∃ kv ∈ parseInfoTags "Gene=CYP2D6", jsToLower kv.1 = "gene" ∧ kv.2 ≠ "") ∧
    (parseVCF "##fileformat=VCFv4.2\n1\t100\trs1\tA\tG\t50\tPASS\tGene=CYP2D6").success
      = true ∧
    (parseVCF "##fileformat=VCFv4.2\n1\t100\trs1\tA\tG\t50\tPASS\tGene=CYP2D6").variants
      = [] := by
  refine ⟨⟨("Gene", "CYP2D6"), by decide, by decide, by decide⟩, by rfl, by rfl⟩

theorem jsToUpper_eq_empty_iff (s : String) : jsToUpper s = "" ↔ s = "" := by
  rw [jsToUpper, string_eq_empty_iff, string_eq_empty_iff]
  simp

/-- Claim C7 as amended: during parsing, a well-formed data line (not a
comment, not blank, at least 8 tab-separated fields) registers a
variant record if and only if its INFO field contains a key spelled
exactly `GENE` or exactly `gene` (the exact-case `GENE` entry read
first) with a non-empty value, and the stored gene symbol is that value
upper-cased.  Keys in any other letter case, such as `Gene`, do not
qualify. -/
theorem info_gene_exact_key :
    ∀ l : String,
      ¬ (jsStartsWith (jsTrim l) "#" = true ∨ jsTrim l = "") →
      ¬ ((jsSplitChar '\t' (jsTrim l)).length < 8) →
      ∀ tags g : _,
        tags = parseInfoTags (jsOr ((jsSplitChar '\t' (jsTrim l)).getD 7 "") "") →
        g = jsOr (getTag tags "GENE") (getTag tags "gene") →
        ((∃ v, parseVCFLine l = some v ∧ v.gene = jsToUpper g) ↔ g ≠ "") := by
  intro l h1 h2 tags g htags hg
  subst htags
  have hskip : lineGene (parseInfoTags
      (jsOr ((jsSplitChar '\t' (jsTrim l)).getD 7 "") "")) = "" →
      parseVCFLine l = none := by
    intro hln
    simp only [parseVCFLine]
    rw [if_neg h1, if_neg h2, if_neg (not_not_intro hln)]
  have hreg : lineGene (parseInfoTags
      (jsOr ((jsSplitChar '\t' (jsTrim l)).getD 7 "") "")) ≠ "" →
      ∃ v, parseVCFLine l = some v ∧ v.gene = lineGene (parseInfoTags
        (jsOr ((jsSplitChar '\t' (jsTrim l)).getD 7 "") "")) := by
    intro hgn
    simp only [parseVCFLine]
    rw [if_neg h1, if_neg h2, if_pos hgn]
    exact ⟨_, rfl, rfl⟩
  constructor
  · rintro ⟨v, hv, hvg⟩ hgempty
    rw [hskip (by rw [lineGene, ← hg, hgempty]; rfl)] at hv
    exact Option.noConfusion hv
  · intro hne
    obtain ⟨v, hv, hvg⟩ := hreg (by
      rw [lineGene, ← hg, Ne, jsToUpper_eq_empty_iff]
      exact hne)
    exact ⟨v, hv, by rw [hvg, lineGene, ← hg]⟩

/-- Witness for C7 (amended): a line carrying `GENE=cyp2d6` registers a
record whose gene is the upper-cased value `CYP2D6`. -/
theorem info_gene_exact_key_witness :
    (∃ v, parseVCFLine "1\t100\trs1\tA\tG\t50\tPASS\tGENE=cyp2d6" = some v ∧
      v.gene = jsToUpper "cyp2d6") ∧
    jsToUpper "cyp2d6" = "CYP2D6" :=
  ⟨(info_gene_exact_key "1\t100\trs1\tA\tG\t50\tPASS\tGENE=cyp2d6"
      (by decide) (by decide)
      (parseInfoTags (jsOr ((jsSplitChar '\t'
        (jsTrim "1\t100\trs1\tA\tG\t50\tPASS\tGENE=cyp2d6")).getD 7 "") ""))
      "cyp2d6" rfl (by rfl)).mpr (by decide),
   by rfl⟩

/- ── Lemmas about classifier output shape ───────────────────── -/

theorem jsOr_ne_empty (a b : String) (hb : b ≠ "") : jsOr a b ≠ "" := by
  rw [jsOr]
  by_cases h : a = ""
  · rw [if_pos h]; exact hb
  · rw [if_neg h]; exact h

theorem exactRule_mem {gene diplo drug : String} {dr : DiplotypeRule}
    {rule : DrugRule} (hx : exactRule gene diplo drug = some (dr, rule)) :
    ∃ dmap, (gene, dmap) ∈ pharmacogenomicDB ∧ (diplo, dr) ∈ dmap ∧
      (drug, rule) ∈ dr.drugs := by
  rw [exactRule] at hx
  split at hx
  · cases hx
  · rename_i dmap h1
    split at hx
    · cases hx
    · rename_i dr' h2
      rcases h3 : alookup dr'.drugs drug with _ | rule'
      · rw [h3] at hx; cases hx
      · rw [h3] at hx
        simp only [Option.map] at hx
        cases hx
        exact ⟨dmap, mem_of_alookup h1, mem_of_alookup h2, mem_of_alookup h3⟩

theorem deriveRiskFromPhenotype_action_ne (drug phenotype gene : String) :
    (deriveRiskFromPhenotype drug phenotype gene).action ≠ "" := by
  rw [deriveRiskFromPhenotype]
  by_cases hp : jsIncludes phenotype "Poor" = true
  · simp only [hp, if_true]
    by_cases hd : (["CODEINE", "TRAMADOL", "CLOPIDOGREL"].contains drug) = true <;>
      simp only [hd, if_true, if_false, Bool.false_eq_true] <;>
      exact append_ne_empty_right _ _ (by decide)
  · simp only [hp, Bool.false_eq_true, if_false]
    by_cases hi : jsIncludes phenotype "Intermediate" = true
    · simp only [hi, if_true]
      exact append_ne_empty_right _ _ (by decide)
    · simp only [hi, Bool.false_eq_true, if_false]
      by_cases hu : jsIncludes phenotype "Ultrarapid" = true
      · simp only [hu, if_true]
        by_cases hd : (["CODEINE", "TRAMADOL", "CLOPIDOGREL"].contains drug) = true <;>
          simp only [hd, if_true, if_false, Bool.false_eq_true] <;>
          exact append_ne_empty_right _ _ (by decide)
      · simp only [hu, Bool.false_eq_true, if_false]
        exact append_ne_empty_right _ _ (by decide)

theorem classifyRisk_drug_eq (drug : String) (variants : List DetectedVariant) :
    (classifyRisk drug variants).drug = jsTrim (jsToUpper drug) := by
  rcases hmap : alookup DRUG_GENE_MAP (jsTrim (jsToUpper drug)) with _ | gene
  · rw [classifyRisk_unmapped drug variants hmap]
  · by_cases hrel : relevantFor gene variants = []
    · rw [classifyRisk_noVariants drug variants gene hmap hrel]
    · rcases hx : exactRule gene (riskDiplotype (relevantFor gene variants))
        (jsTrim (jsToUpper drug)) with _ | ⟨dr, rule⟩
      · rw [classifyRisk_heuristic drug variants gene hmap hrel hx]
      · rw [classifyRisk_exact drug variants gene dr rule hmap hrel hx]

theorem classifyRisk_action_ne (drug : String) (variants : List DetectedVariant) :
    (classifyRisk drug variants).action ≠ "" := by
  rcases hmap : alookup DRUG_GENE_MAP (jsTrim (jsToUpper drug)) with _ | gene
  · rw [classifyRisk_unmapped drug variants hmap]
    exact append_ne_empty_right _ _ (by decide)
  · by_cases hrel : relevantFor gene variants = []
    · rw [classifyRisk_noVariants drug variants gene hmap hrel]
      exact append_ne_empty_right _ _ (by decide)
    · rcases hx : exactRule gene (riskDiplotype (relevantFor gene variants))
        (jsTrim (jsToUpper drug)) with _ | ⟨dr, rule⟩
      · rw [classifyRisk_heuristic drug variants gene hmap hrel hx]
        exact deriveRiskFromPhenotype_action_ne _ _ _
      · rw [classifyRisk_exact drug variants gene dr rule hmap hrel hx]
        obtain ⟨dmap, hg, hd, hr⟩ := exactRule_mem hx
        exact (db_rules_nonempty (gene, dmap) hg
          (riskDiplotype (relevantFor gene variants), dr) hd
          ((jsTrim (jsToUpper drug)), rule) hr).1

theorem fallbackSummary_ne (r : RiskResult) : fallbackSummary r ≠ "" := by
  rw [fallbackSummary]
  rcases hr : r.risk_label <;>
    exact append_ne_empty_right _ _ (by decide)

theorem risk_label_valid (rl : RiskLabel) : VALID_RISK_LABELS.contains rl = true := by
  cases rl <;> rfl

theorem severity_valid (s : Severity) : VALID_SEVERITIES.contains s = true := by
  cases s <;> rfl

theorem validateSchema_none (dp : String → Bool) (r : Report)
    (h1 : r.patient_id ≠ "") (h2 : r.drug ≠ "") (h3 : dp r.timestamp = true) :
    validateSchema dp r = none := by
  rw [validateSchema, if_neg h1, if_neg h2, if_neg (not_not_intro h3),
    if_neg (not_not_intro (risk_label_valid r.risk_assessment.risk_label)),
    if_neg (not_not_intro (severity_valid r.risk_assessment.severity))]

/- ── Claim C9 ───────────────────────────────────────────────── -/

/-- Claim C9: with no text-generation credential configured, the
explanation step returns the deterministic fallback bundle for every
classifier verdict — all three fields are non-empty, `clinical_impact`
is the verdict's action text verbatim — and the assembled report still
passes schema validation. -/
theorem fallback_explanation_complete :
    ∀ (drug : String) (variants : List DetectedVariant)
      (remote : RiskResult → LLMExplanation) (patientId now : String)
      (dp : String → Bool) (vcfSuccess : Bool),
      jsTrim (jsToUpper drug) ≠ "" → patientId ≠ "" → dp now = true →
      callLLM "" remote (classifyRisk drug variants) =
        generateFallbackExplanation (classifyRisk drug variants) ∧
      (callLLM "" remote (classifyRisk drug variants)).summary ≠ "" ∧
      (callLLM "" remote (classifyRisk drug variants)).mechanism ≠ "" ∧
      (callLLM "" remote (classifyRisk drug variants)).clinical_impact ≠ "" ∧
      (callLLM "" remote (classifyRisk drug variants)).clinical_impact =
        (classifyRisk drug variants).action ∧
      generateJSON dp now patientId (classifyRisk drug variants) vcfSuccess
          (callLLM "" remote (classifyRisk drug variants)) =
        .ok (assembleReport now patientId (classifyRisk drug variants) vcfSuccess
          (callLLM "" remote (classifyRisk drug variants))) ∧
      validateSchema dp (assembleReport now patientId (classifyRisk drug variants)
        vcfSuccess (callLLM "" remote (classifyRisk drug variants))) = none := by
  intro drug variants remote patientId now dp vcfSuccess hdrug hpid hnow
  have hfb : callLLM "" remote (classifyRisk drug variants) =
      generateFallbackExplanation (classifyRisk drug variants) := by
    rw [callLLM, if_pos rfl]
  have hval : validateSchema dp (assembleReport now patientId
      (classifyRisk drug variants) vcfSuccess
      (callLLM "" remote (classifyRisk drug variants))) = none := by
    apply validateSchema_none
    · exact hpid
    · show (classifyRisk drug variants).drug ≠ ""
      rw [classifyRisk_drug_eq]
      exact hdrug
    · exact hnow
  refine ⟨hfb, ?_, ?_, ?_, ?_, ?_, hval⟩
  · rw [hfb]
    exact fallbackSummary_ne _
  · rw [hfb]
    exact jsOr_ne_empty _ _ (append_ne_empty_right _ _ (by decide))
  · rw [hfb]
    exact classifyRisk_action_ne drug variants
  · rw [hfb]
    rfl
  · rw [generateJSON]
    simp only [hval]

/-- Witness for C9: CODEINE with no variants, no API key, a fixed clock
value and an always-true date parser. -/
theorem fallback_explanation_complete_witness :
    callLLM "" (fun _ => { summary := "s", mechanism := "m", clinical_impact := "c" })
        (classifyRisk "CODEINE" []) =
      generateFallbackExplanation (classifyRisk "CODEINE" []) ∧
    (callLLM "" (fun _ => { summary := "s", mechanism := "m", clinical_impact := "c" })
        (classifyRisk "CODEINE" [])).clinical_impact =
      (classifyRisk "CODEINE" []).action ∧
    validateSchema (fun _ => true)
      (assembleReport "2024-06-01T00:00:00.000Z" "PG-TEST01" (classifyRisk "CODEINE" [])
        false (callLLM ""
          (fun _ => { summary := "s", mechanism := "m", clinical_impact := "c" })
          (classifyRisk "CODEINE" []))) = none :=
  have h := fallback_explanation_complete "CODEINE" []
    (fun _ => { summary := "s", mechanism := "m", clinical_impact := "c" })
    "PG-TEST01" "2024-06-01T00:00:00.000Z" (fun _ => true) false
    (by decide) (by decide) rfl
  ⟨h.1, h.2.2.2.2.1, h.2.2.2.2.2.2⟩

/- ── Orchestrator bookkeeping ───────────────────────────────── -/

/-- The drugs the loop actually processes: case-insensitive first-seen
deduplication against the `seen` set. -/
def dedupDrugs : List String → List String → List String
  | [], _ => []
  | d :: rest, seen =>
      if seen.contains (jsToUpper d) then dedupDrugs rest seen
      else d :: dedupDrugs rest (jsToUpper d :: seen)

/-- The report of a successful per-drug assembly. -/
def okToOption : Except String Report → Option Report
  | .ok r => some r
  | .error _ => none

/-- The message of a failed per-drug assembly. -/
def errToOption : Except String Report → Option String
  | .error e => some e
  | .ok _ => none

/-- The per-drug assembly outcomes (classify → explain → assemble), the
`i`-th processed drug using the `i`-th clock tick. -/
def drugOutcomes (dp : String → Bool) (clock : Nat → String)
    (patientId apiKey : String) (remote : RiskResult → LLMExplanation)
    (parsedVariants : List DetectedVariant) (vcfSuccess : Bool) :
    Nat → List String → List (Except String Report)
  | _, [] => []
  | i, d :: rest =>
      generateJSON dp (clock i) patientId (classifyRisk d parsedVariants)
        vcfSuccess (callLLM apiKey remote (classifyRisk d parsedVariants)) ::
      drugOutcomes dp clock patientId apiKey remote parsedVariants vcfSuccess
        (i + 1) rest

theorem drugOutcomes_length (dp : String → Bool) (clock : Nat → String)
    (patientId apiKey : String) (remote : RiskResult → LLMExplanation)
    (parsedVariants : List DetectedVariant) (vcfSuccess : Bool) :
    ∀ (ds : List String) (i : Nat),
      (drugOutcomes dp clock patientId apiKey remote parsedVariants vcfSuccess
        i ds).length = ds.length := by
  intro ds
  induction ds with
  | nil => intro i; rfl
  | cons d rest ih =>
    intro i
    simp [drugOutcomes, ih]

theorem filterMap_ok_err_length (os : List (Except String Report)) :
    (os.filterMap okToOption).length + (os.filterMap errToOption).length =
      os.length := by
  induction os with
  | nil => rfl
  | cons o rest ih =>
    cases o <;> simp [okToOption, errToOption, List.filterMap_cons, ← ih] <;> omega

theorem runAnalysisLoop_eq (dp : String → Bool) (clock : Nat → String)
    (patientId apiKey : String) (remote : RiskResult → LLMExplanation)
    (parsedVariants : List DetectedVariant) (vcfSuccess : Bool) :
    ∀ (ds seen : List String) (i : Nat),
      runAnalysisLoop dp clock patientId apiKey remote parsedVariants vcfSuccess
        ds seen i =
      ((drugOutcomes dp clock patientId apiKey remote parsedVariants vcfSuccess
          i (dedupDrugs ds seen)).filterMap okToOption,
       (dedupDrugs ds seen).map (fun d => classifyRisk d parsedVariants),
       (drugOutcomes dp clock patientId apiKey remote parsedVariants vcfSuccess
          i (dedupDrugs ds seen)).filterMap errToOption) := by
  intro ds
  induction ds with
  | nil => intro seen i; rfl
  | cons d rest ih =>
    intro seen i
    by_cases hseen : seen.contains (jsToUpper d) = true
    · simp only [runAnalysisLoop, dedupDrugs, hseen, if_true]
      exact ih seen i
    · simp only [runAnalysisLoop, dedupDrugs, hseen, Bool.false_eq_true, if_false]
      rcases hres : generateJSON dp (clock i) patientId
          (classifyRisk d parsedVariants) vcfSuccess
          (callLLM apiKey remote (classifyRisk d parsedVariants)) with e | rep
      · simp only [drugOutcomes, hres, List.filterMap_cons, okToOption, errToOption,
          List.map_cons, ih (jsToUpper d :: seen) (i + 1)]
      · simp only [drugOutcomes, hres, List.filterMap_cons, okToOption, errToOption,
          List.map_cons, ih (jsToUpper d :: seen) (i + 1)]

/- ── Claim C8 ───────────────────────────────────────────────── -/

/-- Claim C8: the assembler returns a report only if it passes the
schema validator (`validateSchema` is `none` on every report
`generateJSON` returns); when validation fails `generateJSON` throws
the validation message instead of returning a report; and in the
orchestrator a failure for one drug appends the message to
`schemaErrors` and omits only that drug's report, the remaining
distinct drugs all being processed (reports and errors together account
for every distinct requested drug). -/
theorem report_schema_contract :
    (∀ (dp : String → Bool) (now patientId : String) (rr : RiskResult)
        (vcfS : Bool) (e : LLMExplanation) (rep : Report),
      generateJSON dp now patientId rr vcfS e = .ok rep →
      validateSchema dp rep = none) ∧
    (∀ (dp : String → Bool) (now patientId : String) (rr : RiskResult)
        (vcfS : Bool) (e : LLMExplanation) (msg : String),
      validateSchema dp (assembleReport now patientId rr vcfS e) = some msg →
      generateJSON dp now patientId rr vcfS e =
        .error ("Schema validation failed: " ++ msg)) ∧
    (∀ (dp : String → Bool) (clock : Nat → String) (rng : Nat → Nat)
        (apiKey : String) (remote : RiskResult → LLMExplanation)
        (vcfContent : String) (drugs : List String),
      (runAnalysis dp clock rng apiKey remote vcfContent drugs).reports =
        (drugOutcomes dp clock (generatePatientId rng) apiKey remote
          (parseVCF vcfContent).variants (parseVCF vcfContent).success 0
          (dedupDrugs ((drugs.map jsTrim).filter (fun d => d ≠ "")) [])).filterMap
          okToOption ∧
      (runAnalysis dp clock rng apiKey remote vcfContent drugs).schemaErrors =
        (drugOutcomes dp clock (generatePatientId rng) apiKey remote
          (parseVCF vcfContent).variants (parseVCF vcfContent).success 0
          (dedupDrugs ((drugs.map jsTrim).filter (fun d => d ≠ "")) [])).filterMap
          errToOption ∧
      (runAnalysis dp clock rng apiKey remote vcfContent drugs).riskResults =
        (dedupDrugs ((drugs.map jsTrim).filter (fun d => d ≠ "")) []).map
          (fun d => classifyRisk d (parseVCF vcfContent).variants) ∧
      (runAnalysis dp clock rng apiKey remote vcfContent drugs).reports.length +
        (runAnalysis dp clock rng apiKey remote vcfContent drugs).schemaErrors.length =
        (dedupDrugs ((drugs.map jsTrim).filter (fun d => d ≠ "")) []).length) := by
  have hok : ∀ (dp : String → Bool) (now patientId : String) (rr : RiskResult)
      (vcfS : Bool) (e : LLMExplanation) (rep : Report),
      generateJSON dp now patientId rr vcfS e = .ok rep →
      validateSchema dp rep = none := by
    intro dp now patientId rr vcfS e rep h
    rw [generateJSON] at h
    split at h
    · cases h
    · rename_i heq
      cases h
      exact heq
  refine ⟨hok, ?_, ?_⟩
  · intro dp now patientId rr vcfS e msg hval
    rw [generateJSON]
    split
    · rename_i msg' heq
      rw [hval] at heq
      cases heq
      rfl
    · rename_i heq
      rw [hval] at heq
      cases heq
  · intro dp clock rng apiKey remote vcfContent drugs
    have hloop := runAnalysisLoop_eq dp clock (generatePatientId rng) apiKey remote
      (parseVCF vcfContent).variants (parseVCF vcfContent).success
      ((drugs.map jsTrim).filter (fun d => d ≠ "")) [] 0
    have hrep : (runAnalysis dp clock rng apiKey remote vcfContent drugs).reports =
        (runAnalysisLoop dp clock (generatePatientId rng) apiKey remote
          (parseVCF vcfContent).variants (parseVCF vcfContent).success
          ((drugs.map jsTrim).filter (fun d => d ≠ "")) [] 0).1 := rfl
    have herr : (runAnalysis dp clock rng apiKey remote vcfContent drugs).schemaErrors =
        (runAnalysisLoop dp clock (generatePatientId rng) apiKey remote
          (parseVCF vcfContent).variants (parseVCF vcfContent).success
          ((drugs.map jsTrim).filter (fun d => d ≠ "")) [] 0).2.2 := rfl
    have hrisk : (runAnalysis dp clock rng apiKey remote vcfContent drugs).riskResults =
        (runAnalysisLoop dp clock (generatePatientId rng) apiKey remote
          (parseVCF vcfContent).variants (parseVCF vcfContent).success
          ((drugs.map jsTrim).filter (fun d => d ≠ "")) [] 0).2.1 := rfl
    rw [hrep, herr, hrisk, hloop]
    refine ⟨rfl, rfl, rfl, ?_⟩
    rw [filterMap_ok_err_length, drugOutcomes_length]

/-- Witness for C8: a validating configuration yields a report that
passes the validator; a configuration whose date parser rejects the
clock value makes `generateJSON` throw the timestamp message. -/
theorem report_schema_contract_witness :
    validateSchema (fun _ => true)
      (assembleReport "2024-06-01T00:00:00.000Z" "PG-TEST01"
        (classifyRisk "CODEINE" []) true
        { summary := "a", mechanism := "b", clinical_impact := "c" }) = none ∧
    generateJSON (fun _ => false) "bad" "PG-TEST01" (classifyRisk "CODEINE" []) true
      { summary := "a", mechanism := "b", clinical_impact := "c" } =
      .error ("Schema validation failed: " ++
        "timestamp must be a valid ISO 8601 string.") :=
  ⟨report_schema_contract.1 (fun _ => true) "2024-06-01T00:00:00.000Z" "PG-TEST01"
     (classifyRisk "CODEINE" []) true
     { summary := "a", mechanism := "b", clinical_impact := "c" }
     (assembleReport "2024-06-01T00:00:00.000Z" "PG-TEST01"
       (classifyRisk "CODEINE" []) true
       { summary := "a", mechanism := "b", clinical_impact := "c" }) (by rfl),
   report_schema_contract.2.1 (fun _ => false) "bad" "PG-TEST01"
     (classifyRisk "CODEINE" []) true
     { summary := "a", mechanism := "b", clinical_impact := "c" }
     "timestamp must be a valid ISO 8601 string." (by rfl)⟩

end PharmaGuard
